import Mathlib

/-!
# CiudadanoDigital API: application assembly and process entry point

A shallow embedding of `src/app.js` and `src/bin/www.js`.

* JavaScript values are the type `JSVal`; `||` is `JSVal.or`, with the
  language's truthiness.
* The application object is the list of layers that `app.use` / `app.get`
  register, in registration order; a request is served by walking that list
  (`dispatch`), as the Express router does.
* The third-party middleware (`express.json`, `express.urlencoded`, `cors`) is
  not part of this repository. It is modelled from its documented behaviour,
  down to the header checks that need no payload; reading and decoding a
  payload, and the five feature routers, are parameters (`Collaborators`).
* A response is what the client gets. `res.status` refuses a code that is no
  integer from 100 to 999 (the handler then throws and the framework answers
  with its own error page); `res.send` and `res.json` answer a conditional
  request whose validators match with 304, send no body with the statuses
  1xx, 204, 205 and 304 and none to a `HEAD` request. The entity tag is a hash
  of the body: whether it matches the validators of a request is a parameter.
* The two module bodies are sequences of statements over an explicit state
  (`ModuleEval`): each statement appends its effect to a trace (`Effect`), so
  that the order of registration, of `await initDb()` and of `app.listen` can
  be stated. A rejected `await` throws, which ends the module and every module
  that imports it.
-/

namespace CiudadanoDigital

/-! ## JavaScript values -/

/-- What `JSON.stringify` makes of an object: its JSON text, nothing (a `toJSON`
that returns `undefined`), or the `TypeError` that it throws for a circular
structure. An object whose own `toJSON` throws is not among the values. -/
inductive Serial where
  | data
  | omitted
  | throws
  deriving DecidableEq, Repr

/-- JavaScript values. Numbers are the integers and `NaN`. Objects are
references: no code of `app.js` looks inside a property value, so an object is
its identity and what `JSON.stringify` makes of it. -/
inductive JSVal where
  | undefined
  | null
  | bool (b : Bool)
  | number (n : Int)
  | nan
  | string (s : String)
  | function
  | object (ref : Nat) (json : Serial)
  deriving DecidableEq, Repr

namespace JSVal

/-- Truthiness: `undefined`, `null`, `false`, `0`, `NaN` and the empty string
are falsy, every other value is truthy. -/
def truthy : JSVal → Bool
  | undefined => false
  | null => false
  | bool b => b
  | number n => n != 0
  | nan => false
  | string s => s != ""
  | function => true
  | object _ _ => true

/-- The operator `a || b`: `a` when it is truthy, else `b`. -/
def or (a b : JSVal) : JSVal :=
  if a.truthy then a else b

/-- Test for a string value (`typeof v === 'string'`). -/
def isString : JSVal → Bool
  | string _ => true
  | _ => false

/-- Whether `JSON.stringify` writes the value of a property as it is: not for
`undefined` and functions (the property is dropped), `NaN` (written `null`)
and objects without JSON text. -/
def serialisable : JSVal → Bool
  | undefined => false
  | function => false
  | nan => false
  | object _ Serial.data => true
  | object _ _ => false
  | _ => true

end JSVal

/-- A value that travels as an error (thrown, or given to `next`). The code
only reads properties of it, so it is the list of its properties; a thrown
primitive has none of the properties read here. -/
structure ErrorValue where
  props : List (String × JSVal)
  deriving DecidableEq, Repr

/-- Property read `err.key`: `undefined` when the property is absent. -/
def ErrorValue.get (err : ErrorValue) (key : String) : JSVal :=
  (err.props.lookup key).getD JSVal.undefined

/-! ## Requests and responses -/

/-- Request methods, as the HTTP parser delivers them (upper case). -/
inductive Method where
  | GET | HEAD | POST | PUT | DELETE | PATCH | OPTIONS
  | other (name : String)
  deriving DecidableEq, Repr

/-- The parts of an incoming request that the middleware of `app.js` looks at.
Header values are given as the middleware reads them: `hasBody` is the body
test of the parsers (a `Transfer-Encoding` header, or a numeric
`Content-Length`), `mediaType` and `charset` are the lower-cased media type
and charset parameter of `Content-Type`, `noCache` tells whether
`Cache-Control` asks for `no-cache`. -/
structure Request where
  method : Method
  path : String
  query : String := ""
  hasBody : Bool := false
  mediaType : Option String := none
  charset : Option String := none
  origin : Option String := none
  accessControlRequestHeaders : Option String := none
  ifNoneMatch : Option String := none
  ifModifiedSince : Option String := none
  noCache : Bool := false
  otherHeaders : List (String × String) := []
  payload : String := ""
  body : JSVal := JSVal.undefined
  bodyParsed : Bool := false
  deriving DecidableEq, Repr

/-- What a response carries as its body. The two pages are those of the
framework for the request (for a `HEAD` request, their head only). -/
inductive Body where
  | empty
  | text (s : String)
  | json (fields : List (String × JSVal))
  | notFoundPage (method : Method) (path : String)
  | errorPage (err : ErrorValue)
  deriving DecidableEq, Repr

/-- A response under construction: Express starts it with status 200. The
headers are those that the code modelled here sets. -/
structure Response where
  statusCode : JSVal := JSVal.number 200
  headers : List (String × String) := []
  body : Body := Body.empty
  deriving DecidableEq, Repr

namespace Response

/-- Header read `res.getHeader(name)`. -/
def getHeader (res : Response) (name : String) : Option String :=
  res.headers.lookup name

/-- Replace the value of `name` where it stands, or append it. -/
def setIn (name value : String) : List (String × String) → List (String × String)
  | [] => [(name, value)]
  | (k, v) :: rest => if k = name then (k, value) :: rest else (k, v) :: setIn name value rest

/-- Header write `res.setHeader(name, value)`. -/
def setHeader (res : Response) (name value : String) : Response :=
  { res with headers := setIn name value res.headers }

/-- The helper `vary(res, field)` of the cors package: add `field` to `Vary`. -/
def vary (res : Response) (field : String) : Response :=
  match res.getHeader "Vary" with
  | none => res.setHeader "Vary" field
  | some v => res.setHeader "Vary" (v ++ ", " ++ field)

/-- Header removal `res.removeHeader(name)`. -/
def removeHeader (res : Response) (name : String) : Response :=
  { res with headers := res.headers.filter (fun kv => kv.1 != name) }

/-- The assignment `res.statusCode = code`. -/
def setStatusCode (res : Response) (code : JSVal) : Response :=
  { res with statusCode := code }

/-- The error thrown for a status code that the framework refuses; its message
starts with `Invalid status code`. -/
def invalidStatus (name : String) : ErrorValue :=
  ⟨[("name", JSVal.string name), ("message", JSVal.string "Invalid status code")]⟩

/-- The call `res.status(code)`: sets the status code when it is an integer
from 100 to 999; throws a `TypeError` for a value that is no integer and a
`RangeError` for an integer outside the range. (Express 5 throws here; express
4 throws for the same codes when it writes the head, inside `res.json`,
except that it takes a string of digits for its number.) -/
def status (res : Response) (code : JSVal) : Except ErrorValue Response :=
  match code with
  | JSVal.number n =>
    if 100 ≤ n ∧ n ≤ 999 then Except.ok (res.setStatusCode code)
    else Except.error (invalidStatus "RangeError")
  | _ => Except.error (invalidStatus "TypeError")

/-- What `JSON.stringify` makes of an object literal: a property whose value
is `undefined`, a function or an object without JSON text is dropped, `NaN` is
written as `null`, a circular object makes the call throw a `TypeError`. -/
def jsonStringify : List (String × JSVal) → Except ErrorValue (List (String × JSVal))
  | [] => Except.ok []
  | (_, JSVal.undefined) :: rest => jsonStringify rest
  | (_, JSVal.function) :: rest => jsonStringify rest
  | (_, JSVal.object _ Serial.omitted) :: rest => jsonStringify rest
  | (_, JSVal.object _ Serial.throws) :: _ => Except.error ⟨[("name", JSVal.string "TypeError")]⟩
  | (k, JSVal.nan) :: rest =>
    match jsonStringify rest with
    | Except.ok fields => Except.ok ((k, JSVal.null) :: fields)
    | Except.error e => Except.error e
  | (k, v) :: rest =>
    match jsonStringify rest with
    | Except.ok fields => Except.ok ((k, v) :: fields)
    | Except.error e => Except.error e

end Response

/-! ## Collaborators -/

/-- The five feature routers mounted by `app.js`. -/
inductive RouterName where
  | authRouter | userRouter | chatRouter | messageRouter | documentRouter
  deriving DecidableEq, Repr

/-- What a middleware does with a request: hand it on (`next()`), raise an
error (`next(err)` or a throw), end the response, or leave it unanswered. -/
inductive MwResult where
  | next (req : Request) (res : Response)
  | error (err : ErrorValue) (req : Request) (res : Response)
  | done (res : Response)
  | stall
  deriving DecidableEq, Repr

/-- The collaborators of the assembler whose code is not in this repository
slice: the payload stages of the two body parsers (reading the stream and
decoding it, which yields the parsed body or an error), the five routers, and
the comparison of the validators of a conditional request (the values of
`If-None-Match` and `If-Modified-Since`) with the entity about to be sent,
whose entity tag is a hash of the body. -/
structure Collaborators where
  readJson : Request → Except ErrorValue JSVal
  readUrlencoded : Request → Except ErrorValue JSVal
  router : RouterName → Request → Response → MwResult
  validatorsMatch : Option String → Option String → Body → Bool

/-! ## Sending a response -/

namespace Response

/-- A header that is present with a value. -/
def given (h : Option String) : Bool :=
  match h with
  | none => false
  | some v => v != ""

/-- The header test of freshness (package fresh): a request without
`If-None-Match` and `If-Modified-Since` is never fresh, nor one that asks for
`no-cache`; `If-None-Match: *` alone is always fresh; any other case compares
the validators with the entity. -/
def conditionalHit (c : Collaborators) (req : Request) (body : Body) : Bool :=
  if !given req.ifNoneMatch && !given req.ifModifiedSince then false
  else if req.noCache then false
  else if req.ifNoneMatch = some "*" && !given req.ifModifiedSince then true
  else c.validatorsMatch req.ifNoneMatch req.ifModifiedSince body

/-- The status test of freshness: `2xx` or 304. -/
def revalidates : JSVal → Bool
  | JSVal.number n => (200 ≤ n ∧ n < 300) ∨ n = 304
  | _ => false

/-- The getter `req.fresh`, read when the response is sent: only for `GET` and
`HEAD`, only with a status `2xx` or 304, and then by the headers. -/
def fresh (c : Collaborators) (req : Request) (code : JSVal) (body : Body) : Bool :=
  (req.method = Method.GET ∨ req.method = Method.HEAD) && revalidates code &&
    conditionalHit c req body

/-- The statuses that are sent without a body: 204 and 304 (the framework
strips the body), 205 (it empties it) and `1xx` (the runtime sends none). -/
def bodiless : JSVal → Bool
  | JSVal.number n => (100 ≤ n ∧ n < 200) ∨ n = 204 ∨ n = 205 ∨ n = 304
  | _ => false

/-- The end of `res.send`: a fresh request is answered 304; 204 and 304 lose
their content type and body, 205 gets an empty body, `1xx` and a `HEAD` request
get no body; otherwise the body is sent. -/
def finish (c : Collaborators) (req : Request) (res : Response) (body : Body) : Response :=
  let res := if fresh c req res.statusCode body then res.setStatusCode (JSVal.number 304) else res
  if res.statusCode = JSVal.number 204 ∨ res.statusCode = JSVal.number 304 then
    { (res.removeHeader "Content-Type") with body := Body.empty }
  else if res.statusCode = JSVal.number 205 then
    { (res.setHeader "Content-Length" "0") with body := Body.empty }
  else if bodiless res.statusCode ∨ req.method = Method.HEAD then
    { res with body := Body.empty }
  else { res with body := body }

/-- The call `res.json(obj)`: `JSON.stringify(obj)` (which may throw), the
content type JSON unless one was set, then the end of `res.send`. -/
def json (c : Collaborators) (req : Request) (res : Response) (obj : List (String × JSVal)) :
    Except ErrorValue Response :=
  match jsonStringify obj with
  | Except.error e => Except.error e
  | Except.ok fields =>
    let res := match res.getHeader "Content-Type" with
      | none => res.setHeader "Content-Type" "application/json; charset=utf-8"
      | some _ => res
    Except.ok (finish c req res (Body.json fields))

/-- The call `res.send(text)` with a string: the content type HTML unless one
was set, then the end of `res.send`. -/
def send (c : Collaborators) (req : Request) (res : Response) (text : String) : Response :=
  let res := match res.getHeader "Content-Type" with
    | none => res.setHeader "Content-Type" "text/html; charset=utf-8"
    | some _ => res
  finish c req res (Body.text text)

end Response

/-! ## The handlers written in `app.js` -/

/-- A line written with `console.error`: its tag and the value logged. -/
structure LogLine where
  tag : String
  value : ErrorValue
  deriving DecidableEq, Repr

/-- The handler of `app.get(['/api', '/api/'], ...)` (`app.js` lines 33-35): it
sends the text; the response object knows its request. -/
def rootHandler (c : Collaborators) (req : Request) (res : Response) : Response :=
  res.send c req "API de CIUDADANO DIGITAL"

/-- The global error handler (`app.js` lines 44-48): logs the error, then
answers with `err.status || 500` and `{ error: err.message || default }`. It
throws when `res.status` or `res.json` throws; the response object knows its
request. -/
def globalErrorHandler (c : Collaborators) (err : ErrorValue) (req : Request) (res : Response) :
    LogLine × MwResult :=
  let status := (err.get "status").or (JSVal.number 500)
  (⟨"[Global Error Handler]", err⟩,
   match res.status status with
   | Except.error e => MwResult.error e req res
   | Except.ok res1 =>
     match res1.json c req
         [("error", (err.get "message").or (JSVal.string "Error interno del servidor"))] with
     | Except.error e => MwResult.error e req res1
     | Except.ok res2 => MwResult.done res2)

/-! ## Third-party middleware -/

/-- Upper-case form of a string (`toUpperCase`). -/
def upper (s : String) : String :=
  String.mk (s.data.map Char.toUpper)

/-- The error built by `createError(status, message, props)` (package
http-errors): it carries the status twice, the message, whether the message
may be shown to the client, and the extra properties. -/
def createError (status : Int) (message : String) (props : List (String × JSVal)) : ErrorValue :=
  ⟨[("status", JSVal.number status), ("statusCode", JSVal.number status),
    ("message", JSVal.string message),
    ("expose", JSVal.bool (decide (status < 500)))] ++ props⟩

/-- The middleware `express.json()` (package body-parser): skips a request
whose body is already parsed, that declares no body or whose media type is not
JSON; refuses a charset that is not `utf-*` with error 415, before it reads
anything; else reads and parses, which sets `req.body`. -/
def jsonParser (c : Collaborators) (req : Request) (res : Response) : MwResult :=
  if req.bodyParsed then MwResult.next req res
  else if !req.hasBody then MwResult.next req res
  else if req.mediaType != some "application/json" then MwResult.next req res
  else
    let charset := match req.charset with
      | none => "utf-8"
      | some cs => if cs = "" then "utf-8" else cs
    if charset.data.take 4 != "utf-".data then
      MwResult.error
        (createError 415 ("unsupported charset \"" ++ upper charset ++ "\"")
          [("charset", JSVal.string charset), ("type", JSVal.string "charset.unsupported")])
        req res
    else
      match c.readJson req with
      | Except.ok v => MwResult.next { req with body := v, bodyParsed := true } res
      | Except.error e => MwResult.error e req res

/-- The middleware `express.urlencoded({ extended: true })`: skips a request
whose body is already parsed, that declares no body or whose media type is not
`application/x-www-form-urlencoded`; else reads and parses (the charset check
belongs to the payload stage here). -/
def urlencodedParser (c : Collaborators) (req : Request) (res : Response) : MwResult :=
  if req.bodyParsed then MwResult.next req res
  else if !req.hasBody then MwResult.next req res
  else if req.mediaType != some "application/x-www-form-urlencoded" then MwResult.next req res
  else
    match c.readUrlencoded req with
    | Except.ok v => MwResult.next { req with body := v, bodyParsed := true } res
    | Except.error e => MwResult.error e req res

/-- The options of `cors(...)` that `app.js` uses; `none` is an option that
was not given. -/
structure CorsOptions where
  origin : Option String := none
  credentials : Bool := false
  methods : Option (List String) := none
  allowedHeaders : Option (List String) := none
  deriving DecidableEq, Repr

namespace Cors

/-- The package default for `origin`. -/
def defaultOrigin : String := "*"

/-- The package default for `methods`. -/
def defaultMethods : String := "GET,HEAD,PUT,PATCH,POST,DELETE"

/-- The package default for `optionsSuccessStatus`. -/
def optionsSuccessStatus : Int := 204

/-- Origin header: `*` for the wildcard, else the fixed origin with
`Vary: Origin`. -/
def configureOrigin (origin : String) (res : Response) : Response :=
  if origin = "*" then res.setHeader "Access-Control-Allow-Origin" "*"
  else (res.setHeader "Access-Control-Allow-Origin" origin).vary "Origin"

/-- Credentials header, only for `credentials: true`. -/
def configureCredentials (o : CorsOptions) (res : Response) : Response :=
  if o.credentials then res.setHeader "Access-Control-Allow-Credentials" "true" else res

/-- Methods header: the list joined with commas. -/
def configureMethods (o : CorsOptions) (res : Response) : Response :=
  res.setHeader "Access-Control-Allow-Methods"
    (match o.methods with
     | none => defaultMethods
     | some ms => String.intercalate "," ms)

/-- Allowed-headers header: the configured list joined with commas, or the
headers the request asks for (with `Vary`); no header for an empty value. -/
def configureAllowedHeaders (o : CorsOptions) (req : Request) (res : Response) : Response :=
  match o.allowedHeaders with
  | some hs =>
    let v := String.intercalate "," hs
    if v = "" then res else res.setHeader "Access-Control-Allow-Headers" v
  | none =>
    let res := res.vary "Access-Control-Request-Headers"
    match req.accessControlRequestHeaders with
    | none => res
    | some v => if v = "" then res else res.setHeader "Access-Control-Allow-Headers" v

/-- The middleware `cors(options)`. An `OPTIONS` request is a preflight: the
headers are set and the response ends with status 204 and an empty body. Any
other request gets the origin and credentials headers and goes on. -/
def middleware (o : CorsOptions) (req : Request) (res : Response) : MwResult :=
  let origin := o.origin.getD defaultOrigin
  if origin = "" then MwResult.next req res
  else if req.method = Method.OPTIONS then
    let res := configureOrigin origin res
    let res := configureCredentials o res
    let res := configureMethods o res
    let res := configureAllowedHeaders o req res
    let res := res.setStatusCode (JSVal.number optionsSuccessStatus)
    let res := res.setHeader "Content-Length" "0"
    MwResult.done res
  else
    let res := configureOrigin origin res
    let res := configureCredentials o res
    MwResult.next req res

end Cors

/-! ## The application: layers and dispatch -/

/-- The functions that `app.js` registers on the application. -/
inductive Handler where
  | json
  | urlencoded
  | cors (o : CorsOptions)
  | root
  | router (r : RouterName)
  | errorHandler
  deriving DecidableEq, Repr

/-- One registration: `app.use(fn)` (path `/`), `app.use(path, fn)` or
`app.get(paths, fn)`. -/
inductive Layer where
  | use (path : String) (h : Handler)
  | get (paths : List String) (h : Handler)
  deriving DecidableEq, Repr

/-- The function registered by a layer. -/
def Layer.handler : Layer → Handler
  | Layer.use _ h => h
  | Layer.get _ h => h

/-- Lower-case characters of a path: routing is case-insensitive. -/
def lower (s : String) : List Char :=
  s.data.map Char.toLower

/-- A path pattern without its final slash: routing is not strict. -/
def base (pattern : String) : List Char :=
  let cs := lower pattern
  if cs.getLast? = some '/' then cs.dropLast else cs

/-- Match of a route path (a literal path, matched to its end): the path is
the pattern, with or without a final slash. -/
def routeMatches (pattern path : String) : Bool :=
  lower path == base pattern || lower path == base pattern ++ ['/']

/-- Match of a mount path (a literal path, matched as a leading part that ends
at a segment boundary); the path `/` matches every request. -/
def mountMatches (pattern path : String) : Bool :=
  pattern == "/" || lower path == base pattern || (base pattern ++ ['/']).isPrefixOf (lower path)

/-- Whether a layer is tried for a request: by path, and for a route also by
method (`HEAD` is served by the `GET` handler). -/
def Layer.matches (l : Layer) (req : Request) : Bool :=
  match l with
  | Layer.use path _ => mountMatches path req.path
  | Layer.get paths _ =>
    paths.any (fun p => routeMatches p req.path) &&
      (req.method == Method.GET || req.method == Method.HEAD)

/-- Only a function of four parameters handles errors. -/
def Handler.handlesError : Handler → Bool
  | Handler.errorHandler => true
  | _ => false

/-- What serving a request leaves behind: the handlers that ran, the lines
logged, and the response (`none` when the request was left unanswered). -/
structure Served where
  invoked : List Handler
  console : List LogLine
  response : Option Response
  deriving DecidableEq, Repr

/-- Run a handler that is not an error handler. -/
def runHandler (c : Collaborators) (h : Handler) (req : Request) (res : Response) : MwResult :=
  match h with
  | Handler.json => jsonParser c req res
  | Handler.urlencoded => urlencodedParser c req res
  | Handler.cors o => Cors.middleware o req res
  | Handler.root => MwResult.done (rootHandler c req res)
  | Handler.router r => c.router r req res
  | Handler.errorHandler => MwResult.next req res

/-- The status the framework picks for an error nobody handled: the status
of the error when it is a number from 400 to 599, else its `statusCode` when
that is one, else the status of the response when that is one, else 500. -/
def defaultErrorStatus (err : ErrorValue) (res : Response) : JSVal :=
  let valid : JSVal → Bool := fun v =>
    match v with
    | JSVal.number n => 400 ≤ n ∧ n < 600
    | _ => false
  if valid (err.get "status") then err.get "status"
  else if valid (err.get "statusCode") then err.get "statusCode"
  else if valid res.statusCode then res.statusCode
  else JSVal.number 500

/-- Walk the layers in registration order. Without a pending error, error
handlers are skipped; with one, only error handlers run, and an error handler
that throws leaves its own error pending. At the end of the list the framework
answers: 404 when there is no error, its own error page otherwise. -/
def dispatch (c : Collaborators) :
    List Layer → Option ErrorValue → Request → Response → List Handler → List LogLine → Served
  | [], none, req, res, inv, log =>
    ⟨inv, log, some { (res.setHeader "Content-Type" "text/html; charset=utf-8") with
        statusCode := JSVal.number 404, body := Body.notFoundPage req.method req.path }⟩
  | [], some err, _, res, inv, log =>
    ⟨inv, log, some { (res.setHeader "Content-Type" "text/html; charset=utf-8") with
        statusCode := defaultErrorStatus err res, body := Body.errorPage err }⟩
  | l :: ls, none, req, res, inv, log =>
    if l.matches req && !l.handler.handlesError then
      match runHandler c l.handler req res with
      | MwResult.next req1 res1 => dispatch c ls none req1 res1 (inv ++ [l.handler]) log
      | MwResult.error e req1 res1 => dispatch c ls (some e) req1 res1 (inv ++ [l.handler]) log
      | MwResult.done res1 => ⟨inv ++ [l.handler], log, some res1⟩
      | MwResult.stall => ⟨inv ++ [l.handler], log, none⟩
    else dispatch c ls none req res inv log
  | l :: ls, some err, req, res, inv, log =>
    match l with
    | Layer.use _ Handler.errorHandler =>
      if l.matches req then
        match globalErrorHandler c err req res with
        | (line, MwResult.done res1) =>
          ⟨inv ++ [Handler.errorHandler], log ++ [line], some res1⟩
        | (line, MwResult.error e req1 res1) =>
          dispatch c ls (some e) req1 res1 (inv ++ [Handler.errorHandler]) (log ++ [line])
        | (line, MwResult.next req1 res1) =>
          dispatch c ls none req1 res1 (inv ++ [Handler.errorHandler]) (log ++ [line])
        | (line, MwResult.stall) => ⟨inv ++ [Handler.errorHandler], log ++ [line], none⟩
      else dispatch c ls (some err) req res inv log
    | _ => dispatch c ls (some err) req res inv log

/-- Serve a request on an application: a fresh response, no pending error. -/
def handle (c : Collaborators) (layers : List Layer) (req : Request) : Served :=
  dispatch c layers none req {} [] []

/-! ## Module evaluation: `app.js` and `bin/www.js` -/

/-- The settings read at start-up: `consts.apiPath`, `config.get('avoidCors')`
and `config.get('port')`. -/
structure Config where
  apiPath : String
  avoidCors : JSVal
  port : JSVal
  deriving DecidableEq, Repr

/-- How the promise returned by `initDb()` settles (or does not). -/
inductive Settled where
  | resolved
  | rejected (reason : ErrorValue)
  | pending
  deriving DecidableEq, Repr

/-- The effects of module evaluation that can be observed from outside. -/
inductive Effect where
  | register (l : Layer)
  | initDb (outcome : Settled)
  | configGet (key : String)
  | processOn (event : String)
  | listen (port : JSVal)
  deriving DecidableEq, Repr

/-- The state that module evaluation builds up: the effects so far, in order,
and the layers registered on the application. -/
structure ModState where
  trace : List Effect := []
  layers : List Layer := []
  deriving DecidableEq, Repr

/-- How a piece of module code ends: it completes with a value, it throws, or
it stays suspended at an `await` whose promise does not settle. -/
inductive Outcome (α : Type) where
  | completed (value : α) (s : ModState)
  | threw (reason : ErrorValue) (s : ModState)
  | suspended (s : ModState)
  deriving DecidableEq, Repr

/-- The state in which a piece of module code ended. -/
def Outcome.state {α : Type} : Outcome α → ModState
  | Outcome.completed _ s => s
  | Outcome.threw _ s => s
  | Outcome.suspended s => s

/-- Module code: a step from a state to an outcome. -/
def ModuleEval (α : Type) : Type := ModState → Outcome α

/-- Sequencing of statements: the next statement runs only when the one before
completed; a throw or a suspension ends the evaluation. -/
instance : Monad ModuleEval where
  pure a := fun s => Outcome.completed a s
  bind m f := fun s =>
    match m s with
    | Outcome.completed a s1 => f a s1
    | Outcome.threw e s1 => Outcome.threw e s1
    | Outcome.suspended s1 => Outcome.suspended s1

/-- The call `app.use(fn)` (path `/`) or `app.use(path, fn)`. -/
def appUse (path : String) (h : Handler) : ModuleEval Unit := fun s =>
  Outcome.completed ()
    { trace := s.trace ++ [Effect.register (Layer.use path h)]
      layers := s.layers ++ [Layer.use path h] }

/-- The call `app.get(paths, fn)`. -/
def appGet (paths : List String) (h : Handler) : ModuleEval Unit := fun s =>
  Outcome.completed ()
    { trace := s.trace ++ [Effect.register (Layer.get paths h)]
      layers := s.layers ++ [Layer.get paths h] }

/-- The statement `await initDb()`: goes on when the promise resolves, throws
the reason when it rejects, stays suspended when it does not settle. -/
def awaitInitDb (db : Settled) : ModuleEval Unit := fun s =>
  let s1 : ModState := { s with trace := s.trace ++ [Effect.initDb db] }
  match db with
  | Settled.resolved => Outcome.completed () s1
  | Settled.rejected reason => Outcome.threw reason s1
  | Settled.pending => Outcome.suspended s1

/-- The call `config.get(key)`: the configured value of the two keys that the
code reads (a configuration holds a value for both); it throws for a key that
is not defined. -/
def configGet (cfg : Config) (key : String) : ModuleEval JSVal := fun s =>
  let s1 : ModState := { s with trace := s.trace ++ [Effect.configGet key] }
  if key = "avoidCors" then Outcome.completed cfg.avoidCors s1
  else if key = "port" then Outcome.completed cfg.port s1
  else Outcome.threw
    ⟨[("message", JSVal.string ("Configuration property \"" ++ key ++ "\" is not defined"))]⟩ s1

/-- The call `process.on(event, fn)`. -/
def processOn (event : String) : ModuleEval Unit := fun s =>
  Outcome.completed () { s with trace := s.trace ++ [Effect.processOn event] }

/-- The call `app.listen(port, fn)`. -/
def appListen (port : JSVal) : ModuleEval Unit := fun s =>
  Outcome.completed () { s with trace := s.trace ++ [Effect.listen port] }

/-- The policy given to the first `cors(...)` (`app.js` lines 19-24). -/
def corsPolicy : CorsOptions :=
  { origin := some "*"
    credentials := true
    methods := some ["GET", "POST", "PUT", "DELETE", "OPTIONS"]
    allowedHeaders := some ["Content-Type", "Authorization", "X-Client-Type"] }

/-- The body of `app.js`, statement by statement (lines 14-48). -/
def appJs (cfg : Config) (db : Settled) : ModuleEval Unit := do
  appUse "/" Handler.json
  appUse "/" Handler.urlencoded
  appUse "/" (Handler.cors corsPolicy)
  awaitInitDb db
  let avoidCors ← configGet cfg "avoidCors"
  if avoidCors.truthy then appUse "/" (Handler.cors {})
  appGet ["/api", "/api/"] Handler.root
  appUse (cfg.apiPath ++ "/auth/") (Handler.router RouterName.authRouter)
  appUse (cfg.apiPath ++ "/user/") (Handler.router RouterName.userRouter)
  appUse (cfg.apiPath ++ "/chat/") (Handler.router RouterName.chatRouter)
  appUse (cfg.apiPath ++ "/message/") (Handler.router RouterName.messageRouter)
  appUse (cfg.apiPath ++ "/document/") (Handler.router RouterName.documentRouter)
  appUse "/" Handler.errorHandler

/-- The body of `bin/www.js` (lines 2-16). Its import of `app.js` is evaluated
before its own statements, which run only when the import has completed. -/
def wwwJs (cfg : Config) (db : Settled) : ModuleEval Unit := do
  appJs cfg db
  processOn "uncaughtException"
  processOn "unhandledRejection"
  let port ← configGet cfg "port"
  appListen port

/-- Evaluation of `app.js` from the empty state. -/
def evalApp (cfg : Config) (db : Settled) : Outcome Unit :=
  appJs cfg db {}

/-- The application exported by `app.js`: the export exists once the module has
completed, that is once `initDb()` has resolved. -/
def app (cfg : Config) : List Layer :=
  (evalApp cfg Settled.resolved).state.layers

/-- The state of the process after start-up. -/
inductive ProcessState where
  | running
  | exited (code : Nat)
  | waiting
  deriving DecidableEq, Repr

/-- A run of the entry point: its effects in order and the process state. -/
structure ProcessRun where
  trace : List Effect
  state : ProcessState
  deriving DecidableEq, Repr

/-- The events for which the trace holds a `process.on` registration. -/
def observers : List Effect → List String
  | [] => []
  | Effect.processOn event :: rest => event :: observers rest
  | _ :: rest => observers rest

/-- The runtime on an error that no code caught, such as a failed evaluation of
the entry module: with a listener for `uncaughtException` the listener runs
and the process goes on, without one the error is printed and the process
exits with code 1. The listeners are those that the trace registers. -/
def onUncaught (registered : List String) : ProcessState :=
  if "uncaughtException" ∈ registered then ProcessState.running else ProcessState.exited 1

/-- The process started on `bin/www.js`: it runs when the entry module has
completed, it meets an uncaught error when the entry module throws, and it
waits when the entry module stays suspended. -/
def evalWww (cfg : Config) (db : Settled) : ProcessRun :=
  match wwwJs cfg db {} with
  | Outcome.completed _ s => { trace := s.trace, state := ProcessState.running }
  | Outcome.threw _ s => { trace := s.trace, state := onUncaught (observers s.trace) }
  | Outcome.suspended s => { trace := s.trace, state := ProcessState.waiting }

/-! ## Notions used in the statements -/

/-- The layers that `app.js` registers before `await initDb()` (lines 15-25),
as a list. -/
def layersBeforeInit : List Layer :=
  [Layer.use "/" Handler.json,
   Layer.use "/" Handler.urlencoded,
   Layer.use "/" (Handler.cors corsPolicy)]

/-- The layer that `app.js` registers under `avoidCors` (line 30), as a list. -/
def layersAvoidCors (cfg : Config) : List Layer :=
  if cfg.avoidCors.truthy then [Layer.use "/" (Handler.cors {})] else []

/-- The layers that `app.js` registers for its routes (lines 33-48), as a list:
the root route, the five routers under the configured path, the global error
handler. -/
def layersRoutes (cfg : Config) : List Layer :=
  [Layer.get ["/api", "/api/"] Handler.root,
   Layer.use (cfg.apiPath ++ "/auth/") (Handler.router RouterName.authRouter),
   Layer.use (cfg.apiPath ++ "/user/") (Handler.router RouterName.userRouter),
   Layer.use (cfg.apiPath ++ "/chat/") (Handler.router RouterName.chatRouter),
   Layer.use (cfg.apiPath ++ "/message/") (Handler.router RouterName.messageRouter),
   Layer.use (cfg.apiPath ++ "/document/") (Handler.router RouterName.documentRouter),
   Layer.use "/" Handler.errorHandler]

/-- The body parsers raise no error for the request: each of them either skips
it or reads and parses its payload. -/
def ParsersAccept (c : Collaborators) (req : Request) : Prop :=
  (∀ e r s, jsonParser c req {} ≠ MwResult.error e r s) ∧
  (∀ e r s, urlencodedParser c req {} ≠ MwResult.error e r s)

/-- A preflight request: an `OPTIONS` request that declares no body, as the
Fetch standard sends it. -/
def IsPreflight (req : Request) : Prop :=
  req.method = Method.OPTIONS ∧ req.hasBody = false

/-- The path matches none of the routes and mounts of `app.js`. -/
def Unmounted (cfg : Config) (path : String) : Prop :=
  routeMatches "/api" path = false ∧ routeMatches "/api/" path = false ∧
  mountMatches (cfg.apiPath ++ "/auth/") path = false ∧
  mountMatches (cfg.apiPath ++ "/user/") path = false ∧
  mountMatches (cfg.apiPath ++ "/chat/") path = false ∧
  mountMatches (cfg.apiPath ++ "/message/") path = false ∧
  mountMatches (cfg.apiPath ++ "/document/") path = false

/-- Registration of a route, of a router or of the error handler (the layers of
`app.js` lines 33-48), as opposed to the middleware of lines 15-30. -/
def Effect.isRouteRegistration : Effect → Bool
  | Effect.register l =>
    match l.handler with
    | Handler.root => true
    | Handler.router _ => true
    | Handler.errorHandler => true
    | _ => false
  | _ => false

/-- What the client gets when `err` reaches the global error handler, which is
the last layer: the answer of the handler, or the error page of the framework
when the handler throws. -/
def terminal (c : Collaborators) (err : ErrorValue) (req : Request) (res : Response) : Served :=
  dispatch c [Layer.use "/" Handler.errorHandler] (some err) req res [] []

/-- A status code that the framework accepts and sends with a body: an integer
from 200 to 999 other than 204, 205 and 304. -/
def CarriesBody (code : JSVal) : Prop :=
  ∃ n : Int, code = JSVal.number n ∧ 200 ≤ n ∧ n ≤ 999 ∧ n ≠ 204 ∧ n ≠ 205 ∧ n ≠ 304

/-- A request that the framework may answer 304 instead of sending the body: a
`GET` or `HEAD` that carries a validator (`If-None-Match` or
`If-Modified-Since`) and does not ask for `no-cache`, when the status to send
is `2xx` or 304. Whether it is answered 304 then depends on the entity tag. -/
def MayRevalidate (req : Request) (code : JSVal) : Prop :=
  (req.method = Method.GET ∨ req.method = Method.HEAD) ∧
  Response.revalidates code = true ∧
  (Response.given req.ifNoneMatch = true ∨ Response.given req.ifModifiedSince = true) ∧
  req.noCache = false

/-- Collaborators for the worked examples: every payload parses to an object,
no router has a route for the request, the validators of a conditional request
never match the entity. -/
def sampleCollaborators : Collaborators :=
  { readJson := fun _ => Except.ok (JSVal.object 0 Serial.data)
    readUrlencoded := fun _ => Except.ok (JSVal.object 0 Serial.data)
    router := fun _ req res => MwResult.next req res
    validatorsMatch := fun _ _ _ => false }

/-- The request of the worked examples on the error handler. -/
def sampleRequest : Request :=
  { method := Method.GET, path := "/api/user/me" }

/-- The settings of the worked examples. -/
def sampleConfig : Config :=
  { apiPath := "/api", avoidCors := JSVal.bool false, port := JSVal.number 3000 }

end CiudadanoDigital

/-! # Theorems -/

namespace CiudadanoDigital

/-! ## The global error handler -/

theorem or_of_truthy (a b : JSVal) (h : a.truthy = true) : a.or b = a := by
  simp [JSVal.or, h]

theorem or_of_falsy (a b : JSVal) (h : a.truthy = false) : a.or b = b := by
  simp [JSVal.or, h]

theorem truthy_of_carriesBody (code : JSVal) (h : CarriesBody code) : code.truthy = true := by
  obtain ⟨n, rfl, h1, _⟩ := h
  simp only [JSVal.truthy, bne_iff_ne, ne_eq]
  omega

theorem status_of_carriesBody (res : Response) (code : JSVal) (h : CarriesBody code) :
    res.status code = Except.ok (res.setStatusCode code) := by
  obtain ⟨n, rfl, h1, h2, _⟩ := h
  have h3 : 100 ≤ n ∧ n ≤ 999 := ⟨by omega, h2⟩
  simp [Response.status, h3]

theorem carriesBody_500 : CarriesBody (JSVal.number 500) :=
  ⟨500, rfl, by decide, by decide, by decide, by decide, by decide⟩

theorem fresh_of_not_mayRevalidate (c : Collaborators) (req : Request) (code : JSVal)
    (body : Body) (h : ¬ MayRevalidate req code) : Response.fresh c req code body = false := by
  by_contra hc
  have hc2 : Response.fresh c req code body = true := by simpa using hc
  simp only [Response.fresh, Bool.and_eq_true, decide_eq_true_eq] at hc2
  obtain ⟨⟨h1, h2⟩, h3⟩ := hc2
  apply h
  refine ⟨h1, h2, ?_, ?_⟩
  · by_contra hg
    simp only [not_or, Bool.not_eq_true] at hg
    simp [Response.conditionalHit, hg.1, hg.2] at h3
  · by_contra hn
    have hn2 : req.noCache = true := by simpa using hn
    simp [Response.conditionalHit, hn2] at h3

theorem fresh_500 (c : Collaborators) (req : Request) (body : Body) :
    Response.fresh c req (JSVal.number 500) body = false := by
  simp [Response.fresh, Response.revalidates]

/-- The end of `res.send` for a status that carries a body, a request that is
no `HEAD` and is not fresh: the body is sent and the status stays. -/
theorem finish_of_carriesBody (c : Collaborators) (req : Request) (res : Response) (body : Body)
    (hc : CarriesBody res.statusCode) (hh : req.method ≠ Method.HEAD)
    (hf : Response.fresh c req res.statusCode body = false) :
    Response.finish c req res body = { res with body := body } := by
  obtain ⟨n, hn, h1, h2, h3, h4, h5⟩ := hc
  have e1 : ¬ (JSVal.number n = JSVal.number 204 ∨ JSVal.number n = JSVal.number 304) := by
    simp only [JSVal.number.injEq]
    omega
  have e2 : ¬ (JSVal.number n = JSVal.number 205) := by
    simp only [JSVal.number.injEq]
    omega
  have e3 : ¬ (Response.bodiless (JSVal.number n) = true ∨ req.method = Method.HEAD) := by
    simp only [Response.bodiless, decide_eq_true_eq, not_or]
    exact ⟨by omega, hh⟩
  rw [hn] at hf
  simp only [Response.finish, hn, hf, Bool.false_eq_true, if_false, e1, e2, e3]

theorem jsonStringify_error_field (m : JSVal) (h : m.serialisable = true) :
    Response.jsonStringify [("error", m)] = Except.ok [("error", m)] := by
  cases m with
  | object ref ser => cases ser <;> first | rfl | simp [JSVal.serialisable] at h
  | undefined => simp [JSVal.serialisable] at h
  | function => simp [JSVal.serialisable] at h
  | nan => simp [JSVal.serialisable] at h
  | _ => rfl

/-- The handler on an error whose status carries a body and whose message is
written as it is, for a request that is no `HEAD` and is not fresh. -/
theorem globalErrorHandler_sent (c : Collaborators) (err : ErrorValue) (req : Request)
    (res : Response) (s m : JSVal)
    (hs : (err.get "status").or (JSVal.number 500) = s) (hc : CarriesBody s)
    (hm : (err.get "message").or (JSVal.string "Error interno del servidor") = m)
    (hser : m.serialisable = true)
    (hh : req.method ≠ Method.HEAD)
    (hf : Response.fresh c req s (Body.json [("error", m)]) = false) :
    ∃ r, (globalErrorHandler c err req res).2 = MwResult.done r ∧
      r.statusCode = s ∧ r.body = Body.json [("error", m)] := by
  simp only [globalErrorHandler, hs, hm, status_of_carriesBody res s hc, Response.json,
    jsonStringify_error_field m hser]
  split
  · rw [finish_of_carriesBody c req _ _ (by exact hc) hh (by exact hf)]
    exact ⟨_, rfl, rfl, rfl⟩
  · rw [finish_of_carriesBody c req _ _ (by exact hc) hh (by exact hf)]
    exact ⟨_, rfl, rfl, rfl⟩

/-- What the client gets is the answer of the handler when it answers. -/
theorem terminal_of_done (c : Collaborators) (err : ErrorValue) (req : Request) (res r : Response)
    (h : (globalErrorHandler c err req res).2 = MwResult.done r) :
    (terminal c err req res).invoked = [Handler.errorHandler] ∧
    (terminal c err req res).response = some r := by
  have hm : (Layer.use "/" Handler.errorHandler).matches req = true := by
    simp [Layer.matches, mountMatches]
  simp only [terminal, dispatch, hm, if_true]
  rcases hg : globalErrorHandler c err req res with ⟨line, out⟩
  rw [hg] at h
  simp only at h
  subst h
  exact ⟨rfl, rfl⟩

/-- C1, as stated, fails. An error with status 404 and the message `""` gets the
default text; status 0 gets 500; status -1 is refused by `res.status`, the
handler throws and the client gets the error page of the framework with status
500; status 204 and status 205 are sent without a body; a function as message
leaves `{}`; a
`HEAD` request gets no body; a `GET` with `If-None-Match: *` and status 200
gets 304 without a body. -/
theorem c1_declared_values_not_always_sent :
    (terminal sampleCollaborators
        ⟨[("status", JSVal.number 404), ("message", JSVal.string "")]⟩
        sampleRequest {}).response.map Response.body =
      some (Body.json [("error", JSVal.string "Error interno del servidor")]) ∧
    (terminal sampleCollaborators
        ⟨[("status", JSVal.number 0), ("message", JSVal.string "Not found")]⟩
        sampleRequest {}).response.map Response.statusCode = some (JSVal.number 500) ∧
    (terminal sampleCollaborators
        ⟨[("status", JSVal.number (-1)), ("message", JSVal.string "Not found")]⟩
        sampleRequest {}).response =
      some ⟨JSVal.number 500, [("Content-Type", "text/html; charset=utf-8")],
        Body.errorPage (Response.invalidStatus "RangeError")⟩ ∧
    (terminal sampleCollaborators
        ⟨[("status", JSVal.number 204), ("message", JSVal.string "Not found")]⟩
        sampleRequest {}).response.map Response.body = some Body.empty ∧
    (terminal sampleCollaborators
        ⟨[("status", JSVal.number 205), ("message", JSVal.string "Not found")]⟩
        sampleRequest {}).response.map Response.body = some Body.empty ∧
    (terminal sampleCollaborators
        ⟨[("status", JSVal.number 404), ("message", JSVal.function)]⟩
        sampleRequest {}).response.map Response.body = some (Body.json []) ∧
    (terminal sampleCollaborators
        ⟨[("status", JSVal.number 404), ("message", JSVal.string "Not found")]⟩
        { method := Method.HEAD, path := "/api/user/me" } {}).response.map Response.body =
      some Body.empty ∧
    (terminal sampleCollaborators
        ⟨[("status", JSVal.number 200), ("message", JSVal.string "Not found")]⟩
        { method := Method.GET, path := "/api/user/me", ifNoneMatch := some "*" }
        {}).response =
      some ⟨JSVal.number 304, [], Body.empty⟩ := by
  decide

/-- C1, amended: for an error whose status `s` is an integer from 200 to 999
other than 204, 205 and 304, and whose message `m` is truthy and written by
`JSON.stringify` as it is, for every request that is no `HEAD` and no
conditional request that may be answered 304, and whatever the response under
construction, the handler answers, with status exactly `s` and body exactly
`{"error": m}`. -/
theorem c1_declared_status_and_message (c : Collaborators) (err : ErrorValue) (req : Request)
    (res : Response) (s m : JSVal)
    (hs : err.get "status" = s) (hc : CarriesBody s)
    (hm : err.get "message" = m) (hmt : m.truthy = true) (hser : m.serialisable = true)
    (hh : req.method ≠ Method.HEAD) (hf : ¬ MayRevalidate req s) :
    (terminal c err req res).invoked = [Handler.errorHandler] ∧
    ∃ r, (terminal c err req res).response = some r ∧
      r.statusCode = s ∧ r.body = Body.json [("error", m)] := by
  obtain ⟨r, hr, h1, h2⟩ := globalErrorHandler_sent c err req res s m
    (by rw [hs, or_of_truthy _ _ (truthy_of_carriesBody s hc)]) hc
    (by rw [hm, or_of_truthy _ _ hmt]) hser hh (fresh_of_not_mayRevalidate c req s _ hf)
  obtain ⟨hi, hresp⟩ := terminal_of_done c err req res r hr
  exact ⟨hi, r, hresp, h1, h2⟩

/-- Witness for C1: the error of the specification, status 404 and message
`Not found`, on a `GET` request. -/
theorem c1_declared_status_and_message_witness :
    (terminal sampleCollaborators
        ⟨[("status", JSVal.number 404), ("message", JSVal.string "Not found")]⟩
        sampleRequest {}).invoked = [Handler.errorHandler] ∧
    ∃ r,
      (terminal sampleCollaborators
        ⟨[("status", JSVal.number 404), ("message", JSVal.string "Not found")]⟩
        sampleRequest {}).response = some r ∧
      r.statusCode = JSVal.number 404 ∧
      r.body = Body.json [("error", JSVal.string "Not found")] :=
  c1_declared_status_and_message sampleCollaborators
    ⟨[("status", JSVal.number 404), ("message", JSVal.string "Not found")]⟩ sampleRequest {}
    (JSVal.number 404) (JSVal.string "Not found") (by decide)
    ⟨404, rfl, by decide, by decide, by decide, by decide, by decide⟩
    (by decide) (by decide) (by decide) (by decide) (by unfold MayRevalidate; decide)

theorem finish_statusCode_500 (c : Collaborators) (req : Request) (res : Response) (body : Body)
    (h : res.statusCode = JSVal.number 500) :
    (Response.finish c req res body).statusCode = JSVal.number 500 := by
  have e1 : ¬ (JSVal.number 500 = JSVal.number 204 ∨ JSVal.number 500 = JSVal.number 304) := by
    decide
  have e2 : ¬ (JSVal.number 500 = JSVal.number 205) := by decide
  simp only [Response.finish, h, fresh_500, Bool.false_eq_true, if_false, e1, e2]
  split <;> rfl

theorem jsonStringify_error_cases (v : JSVal) :
    Response.jsonStringify [("error", v)] = Except.error ⟨[("name", JSVal.string "TypeError")]⟩ ∨
    ∃ fields, Response.jsonStringify [("error", v)] = Except.ok fields := by
  cases v with
  | object ref ser =>
    cases ser
    · exact Or.inr ⟨_, rfl⟩
    · exact Or.inr ⟨_, rfl⟩
    · exact Or.inl rfl
  | _ => exact Or.inr ⟨_, rfl⟩

/-- A falsy status makes the handler ask for 500, and 500 is what the client
gets, whether the handler answers or throws while writing the body. -/
theorem terminal_status_500 (c : Collaborators) (err : ErrorValue) (req : Request)
    (res : Response) (h : (err.get "status").truthy = false) :
    ∃ r, (terminal c err req res).response = some r ∧ r.statusCode = JSVal.number 500 := by
  have hm : (Layer.use "/" Handler.errorHandler).matches req = true := by
    simp [Layer.matches, mountMatches]
  have hs : res.status (JSVal.number 500) = Except.ok (res.setStatusCode (JSVal.number 500)) :=
    status_of_carriesBody res _ carriesBody_500
  rcases jsonStringify_error_cases
      ((err.get "message").or (JSVal.string "Error interno del servidor")) with hj | ⟨fields, hj⟩
  · simp only [terminal, dispatch, hm, if_true, globalErrorHandler, or_of_falsy _ _ h, hs,
      Response.json, hj]
    refine ⟨_, rfl, ?_⟩
    simp [defaultErrorStatus, ErrorValue.get, Response.setStatusCode]
    decide
  · simp only [terminal, dispatch, hm, if_true, globalErrorHandler, or_of_falsy _ _ h, hs,
      Response.json, hj]
    refine ⟨_, rfl, ?_⟩
    apply finish_statusCode_500
    split <;> rfl

/-- C2, as stated, fails. With no message: status -1 is refused by
`res.status`, the handler throws and the client gets the error page of the
framework, not the default text; status 204 is sent without a body. With no
status and no message, a `HEAD` request gets status 500 and no body. -/
theorem c2_default_text_not_always_sent :
    (terminal sampleCollaborators ⟨[("status", JSVal.number (-1))]⟩
        sampleRequest {}).response.map Response.body =
      some (Body.errorPage (Response.invalidStatus "RangeError")) ∧
    (terminal sampleCollaborators ⟨[("status", JSVal.number 204)]⟩
        sampleRequest {}).response.map Response.body = some Body.empty ∧
    (terminal sampleCollaborators ⟨[]⟩
        { method := Method.HEAD, path := "/api/user/me" } {}).response.map Response.statusCode =
      some (JSVal.number 500) ∧
    (terminal sampleCollaborators ⟨[]⟩
        { method := Method.HEAD, path := "/api/user/me" } {}).response.map Response.body =
      some Body.empty := by
  decide

/-- C2, amended: an error with no status and no message is answered, to every
request that is no `HEAD`, with status 500 and body
`{"error": "Error interno del servidor"}`. The two defaults are independent: an
absent (or falsy) status gives status 500 whatever the message and the request;
an absent (or falsy) message gives the default text for every status that is
absent (or falsy) or an integer from 200 to 999 other than 204, 205 and 304,
to every request that is no `HEAD` and no conditional request that may be
answered 304. -/
theorem c2_defaults (c : Collaborators) (err : ErrorValue) (req : Request) (res : Response) :
    (err.get "status" = JSVal.undefined → err.get "message" = JSVal.undefined →
      req.method ≠ Method.HEAD →
      ∃ r, (terminal c err req res).response = some r ∧
        r.statusCode = JSVal.number 500 ∧
        r.body = Body.json [("error", JSVal.string "Error interno del servidor")]) ∧
    ((err.get "status").truthy = false →
      ∃ r, (terminal c err req res).response = some r ∧ r.statusCode = JSVal.number 500) ∧
    ((err.get "message").truthy = false →
      CarriesBody ((err.get "status").or (JSVal.number 500)) →
      req.method ≠ Method.HEAD →
      ¬ MayRevalidate req ((err.get "status").or (JSVal.number 500)) →
      ∃ r, (terminal c err req res).response = some r ∧
        r.statusCode = (err.get "status").or (JSVal.number 500) ∧
        r.body = Body.json [("error", JSVal.string "Error interno del servidor")]) := by
  have hmessage : (err.get "message").truthy = false →
      CarriesBody ((err.get "status").or (JSVal.number 500)) →
      req.method ≠ Method.HEAD →
      ¬ MayRevalidate req ((err.get "status").or (JSVal.number 500)) →
      ∃ r, (terminal c err req res).response = some r ∧
        r.statusCode = (err.get "status").or (JSVal.number 500) ∧
        r.body = Body.json [("error", JSVal.string "Error interno del servidor")] := by
    intro hm hc hh hf
    obtain ⟨r, hr, h1, h2⟩ := globalErrorHandler_sent c err req res _
      (JSVal.string "Error interno del servidor") rfl hc (or_of_falsy _ _ hm) rfl hh
      (fresh_of_not_mayRevalidate c req _ _ hf)
    exact ⟨r, (terminal_of_done c err req res r hr).2, h1, h2⟩
  refine ⟨?_, terminal_status_500 c err req res, hmessage⟩
  intro h1 h2 hh
  have hs : (err.get "status").or (JSVal.number 500) = JSVal.number 500 :=
    or_of_falsy _ _ (by rw [h1]; rfl)
  have := hmessage (by rw [h2]; rfl) (by rw [hs]; exact carriesBody_500) hh
    (by rw [hs]; intro hr; exact absurd hr.2.1 (by decide))
  rw [hs] at this
  exact this

/-- Witness for C2: the error without properties, on a `GET` request. -/
theorem c2_defaults_witness :
    ∃ r, (terminal sampleCollaborators ⟨[]⟩ sampleRequest {}).response = some r ∧
      r.statusCode = JSVal.number 500 ∧
      r.body = Body.json [("error", JSVal.string "Error interno del servidor")] :=
  (c2_defaults sampleCollaborators ⟨[]⟩ sampleRequest {}).1 rfl rfl (by decide)

/-- C9, as stated, fails. For an error whose message is the number 42 the body
is `{"error": 42}`, its field is no string; a function as message leaves `{}`;
with a string message, status -1 makes the handler throw and the body is the
error page of the framework, status 204 is sent without a body, and a `HEAD`
request gets no body. -/
theorem c9_envelope_not_always_sent :
    (terminal sampleCollaborators ⟨[("message", JSVal.number 42)]⟩
        sampleRequest {}).response.map Response.body =
      some (Body.json [("error", JSVal.number 42)]) ∧
    (terminal sampleCollaborators ⟨[("message", JSVal.function)]⟩
        sampleRequest {}).response.map Response.body = some (Body.json []) ∧
    (terminal sampleCollaborators
        ⟨[("status", JSVal.number (-1)), ("message", JSVal.string "Not found")]⟩
        sampleRequest {}).response.map Response.body =
      some (Body.errorPage (Response.invalidStatus "RangeError")) ∧
    (terminal sampleCollaborators
        ⟨[("status", JSVal.number 204), ("message", JSVal.string "Not found")]⟩
        sampleRequest {}).response.map Response.body = some Body.empty ∧
    (terminal sampleCollaborators
        ⟨[("status", JSVal.number 404), ("message", JSVal.string "Not found")]⟩
        { method := Method.HEAD, path := "/api/user/me" } {}).response.map Response.body =
      some Body.empty := by
  decide

/-- C9, amended: for an error whose message is a string or is falsy (absent
included), and whose status is absent (or falsy) or an integer from 200 to 999
other than 204, 205 and 304, for every request that is no `HEAD` and no
conditional request that may be answered 304, the body is an object with
exactly one field, `error`, whose value is a string. -/
theorem c9_envelope_shape (c : Collaborators) (err : ErrorValue) (req : Request) (res : Response)
    (h : (err.get "message").isString = true ∨ (err.get "message").truthy = false)
    (hc : CarriesBody ((err.get "status").or (JSVal.number 500)))
    (hh : req.method ≠ Method.HEAD)
    (hf : ¬ MayRevalidate req ((err.get "status").or (JSVal.number 500))) :
    ∃ r, (terminal c err req res).response = some r ∧
      ∃ s : String, r.body = Body.json [("error", JSVal.string s)] := by
  have hstr : ∃ s : String,
      (err.get "message").or (JSVal.string "Error interno del servidor") = JSVal.string s := by
    by_cases ht : (err.get "message").truthy = true
    · rcases h with h | h
      · cases hm : err.get "message" with
        | string m =>
          rw [hm] at ht
          exact ⟨m, or_of_truthy _ _ ht⟩
        | _ => rw [hm] at h; simp [JSVal.isString] at h
      · rw [h] at ht; cases ht
    · have hfalse : (err.get "message").truthy = false := by simpa using ht
      exact ⟨"Error interno del servidor", or_of_falsy _ _ hfalse⟩
  obtain ⟨s, hs⟩ := hstr
  obtain ⟨r, hr, _, h2⟩ := globalErrorHandler_sent c err req res _ (JSVal.string s) rfl hc hs
    rfl hh (fresh_of_not_mayRevalidate c req _ _ hf)
  exact ⟨r, (terminal_of_done c err req res r hr).2, s, h2⟩

/-- Witness for C9: an error with status 404 and message `Not found`, on a `GET`
request. -/
theorem c9_envelope_shape_witness :
    ∃ r,
      (terminal sampleCollaborators
        ⟨[("status", JSVal.number 404), ("message", JSVal.string "Not found")]⟩
        sampleRequest {}).response = some r ∧
      ∃ s : String, r.body = Body.json [("error", JSVal.string s)] :=
  c9_envelope_shape sampleCollaborators
    ⟨[("status", JSVal.number 404), ("message", JSVal.string "Not found")]⟩ sampleRequest {}
    (Or.inl (by decide)) ⟨404, rfl, by decide, by decide, by decide, by decide, by decide⟩
    (by decide) (by unfold MayRevalidate; decide)

/-! ## Assembly and start-up order -/

theorem app_eq (cfg : Config) :
    app cfg = layersBeforeInit ++ (layersAvoidCors cfg ++ layersRoutes cfg) := by
  cases h : cfg.avoidCors.truthy <;>
    simp [app, evalApp, appJs, bind, pure, appUse, appGet, awaitInitDb, configGet,
      Outcome.state, layersBeforeInit, layersAvoidCors, layersRoutes, h]

theorem trace_evalWww_rejected (cfg : Config) (reason : ErrorValue) :
    (evalWww cfg (Settled.rejected reason)).trace =
      [Effect.register (Layer.use "/" Handler.json),
       Effect.register (Layer.use "/" Handler.urlencoded),
       Effect.register (Layer.use "/" (Handler.cors corsPolicy)),
       Effect.initDb (Settled.rejected reason)] := rfl

theorem trace_evalWww_pending (cfg : Config) :
    (evalWww cfg Settled.pending).trace =
      [Effect.register (Layer.use "/" Handler.json),
       Effect.register (Layer.use "/" Handler.urlencoded),
       Effect.register (Layer.use "/" (Handler.cors corsPolicy)),
       Effect.initDb Settled.pending] := rfl

theorem trace_evalWww_resolved (cfg : Config) :
    (evalWww cfg Settled.resolved).trace =
      (layersBeforeInit.map Effect.register ++
        Effect.initDb Settled.resolved ::
          (Effect.configGet "avoidCors" ::
            (layersAvoidCors cfg ++ layersRoutes cfg).map Effect.register ++
            [Effect.processOn "uncaughtException", Effect.processOn "unhandledRejection",
             Effect.configGet "port"])) ++ [Effect.listen cfg.port] := by
  cases h : cfg.avoidCors.truthy <;>
    simp [evalWww, wwwJs, appJs, bind, pure, appUse, appGet, awaitInitDb, configGet, processOn,
      appListen, layersBeforeInit, layersAvoidCors, layersRoutes, h]

theorem listen_split_unique (T pre post : List Effect) (p q : JSVal)
    (hT : ∀ r, Effect.listen r ∉ T)
    (h : T ++ [Effect.listen q] = pre ++ Effect.listen p :: post) :
    pre = T ∧ post = [] ∧ p = q := by
  induction T generalizing pre with
  | nil =>
    cases pre with
    | nil =>
      simp only [List.nil_append, List.cons.injEq, Effect.listen.injEq] at h
      exact ⟨rfl, h.2.symm, h.1.symm⟩
    | cons x xs =>
      simp only [List.nil_append, List.cons_append, List.cons.injEq] at h
      have h2 := congrArg List.length h.2
      simp at h2
      omega
  | cons t T ih =>
    cases pre with
    | nil =>
      simp only [List.cons_append, List.nil_append, List.cons.injEq] at h
      exact absurd (h.1 ▸ List.mem_cons_self t T) (hT p)
    | cons x xs =>
      simp only [List.cons_append, List.cons.injEq] at h
      have hT2 : ∀ r, Effect.listen r ∉ T := fun r hr => hT r (List.mem_cons_of_mem _ hr)
      obtain ⟨h1, h2, h3⟩ := ih xs hT2 h.2
      exact ⟨by rw [h.1, h1], h2, h3⟩

/-- C3, as stated, fails: when `initDb()` rejects, `app.listen` is never called,
no observer is registered (so none can log the rejection), no route and no
error handler is registered, and the process exits with code 1. -/
theorem c3_rejected_init_stops_startup :
    (evalWww sampleConfig (Settled.rejected ⟨[("message", JSVal.string "connection refused")]⟩)).state
        = ProcessState.exited 1 ∧
    Effect.listen (JSVal.number 3000) ∉
      (evalWww sampleConfig (Settled.rejected ⟨[("message", JSVal.string "connection refused")]⟩)).trace ∧
    observers
      (evalWww sampleConfig (Settled.rejected ⟨[("message", JSVal.string "connection refused")]⟩)).trace
        = [] ∧
    Effect.register (Layer.use "/" Handler.errorHandler) ∉
      (evalWww sampleConfig (Settled.rejected ⟨[("message", JSVal.string "connection refused")]⟩)).trace := by
  decide

/-- C3, amended: when `initDb()` rejects, the evaluation of `app.js` ends at the
`await`: only the body parsers and the first CORS policy are registered (no
route, no router, no error handler); the body of `www.js` does not run, so no
observer is registered and `app.listen` is never called; the process exits
with code 1. -/
theorem c3_rejected_init (cfg : Config) (reason : ErrorValue) :
    (evalWww cfg (Settled.rejected reason)).trace =
      [Effect.register (Layer.use "/" Handler.json),
       Effect.register (Layer.use "/" Handler.urlencoded),
       Effect.register (Layer.use "/" (Handler.cors corsPolicy)),
       Effect.initDb (Settled.rejected reason)] ∧
    (evalWww cfg (Settled.rejected reason)).state = ProcessState.exited 1 ∧
    (∀ p, Effect.listen p ∉ (evalWww cfg (Settled.rejected reason)).trace) ∧
    observers (evalWww cfg (Settled.rejected reason)).trace = [] ∧
    (∀ e ∈ (evalWww cfg (Settled.rejected reason)).trace, e.isRouteRegistration = false) := by
  have ht := trace_evalWww_rejected cfg reason
  refine ⟨ht, rfl, ?_, rfl, ?_⟩
  · intro p hp
    rw [ht] at hp
    simp at hp
  · intro e he
    rw [ht] at he
    simp only [List.mem_cons, List.mem_singleton, List.not_mem_nil, or_false] at he
    rcases he with h | h | h | h <;> subst h <;> rfl

/-- C6: in every run in which `app.listen` is called, `initDb()` has resolved
before the call; every registration of a route, of a router and of the error
handler lies between the two (none before the resolution, none after the
call), and `app.listen` is called once. -/
theorem c6_listen_after_init (cfg : Config) (db : Settled) (pre post : List Effect) (p : JSVal)
    (h : (evalWww cfg db).trace = pre ++ Effect.listen p :: post) :
    ∃ a b, pre = a ++ Effect.initDb Settled.resolved :: b ∧
      (∀ e ∈ a, e.isRouteRegistration = false) ∧
      (∀ e ∈ post, e.isRouteRegistration = false) ∧
      (∀ l ∈ layersRoutes cfg, Effect.register l ∈ b) ∧
      (∀ q, Effect.listen q ∉ pre) ∧ (∀ q, Effect.listen q ∉ post) := by
  cases db with
  | resolved =>
    rw [trace_evalWww_resolved] at h
    have hT : ∀ r, Effect.listen r ∉
        (layersBeforeInit.map Effect.register ++
          Effect.initDb Settled.resolved ::
            (Effect.configGet "avoidCors" ::
              (layersAvoidCors cfg ++ layersRoutes cfg).map Effect.register ++
              [Effect.processOn "uncaughtException", Effect.processOn "unhandledRejection",
               Effect.configGet "port"])) := by
      intro r hr
      simp [layersBeforeInit] at hr
    obtain ⟨hpre, hpost, _⟩ := listen_split_unique _ pre post p cfg.port hT h
    refine ⟨layersBeforeInit.map Effect.register, _, hpre, ?_, ?_, ?_, ?_, ?_⟩
    · intro e he
      simp only [layersBeforeInit, List.map_cons, List.map_nil, List.mem_cons,
        List.mem_singleton, List.not_mem_nil, or_false] at he
      rcases he with h | h | h <;> subst h <;> rfl
    · intro e he
      rw [hpost] at he
      cases he
    · intro l hl
      exact List.mem_cons_of_mem _ (List.mem_append_left _
        (List.mem_map_of_mem Effect.register (List.mem_append_right _ hl)))
    · intro q hq
      rw [hpre] at hq
      exact hT q hq
    · intro q hq
      rw [hpost] at hq
      cases hq
  | rejected reason =>
    have hm : Effect.listen p ∈ (evalWww cfg (Settled.rejected reason)).trace := by
      rw [h]; simp
    rw [trace_evalWww_rejected] at hm
    simp at hm
  | pending =>
    have hm : Effect.listen p ∈ (evalWww cfg Settled.pending).trace := by
      rw [h]; simp
    rw [trace_evalWww_pending] at hm
    simp at hm

/-- Witness for C6: the run of the sample settings with a resolving `initDb()`,
split at its call of `app.listen`. -/
theorem c6_listen_after_init_witness :
    ∃ a b,
      (layersBeforeInit.map Effect.register ++
        Effect.initDb Settled.resolved ::
          (Effect.configGet "avoidCors" ::
            (layersAvoidCors sampleConfig ++ layersRoutes sampleConfig).map Effect.register ++
            [Effect.processOn "uncaughtException", Effect.processOn "unhandledRejection",
             Effect.configGet "port"])) = a ++ Effect.initDb Settled.resolved :: b ∧
      (∀ e ∈ a, e.isRouteRegistration = false) ∧
      (∀ e ∈ ([] : List Effect), e.isRouteRegistration = false) ∧
      (∀ l ∈ layersRoutes sampleConfig, Effect.register l ∈ b) ∧
      (∀ q, Effect.listen q ∉
        (layersBeforeInit.map Effect.register ++
          Effect.initDb Settled.resolved ::
            (Effect.configGet "avoidCors" ::
              (layersAvoidCors sampleConfig ++ layersRoutes sampleConfig).map Effect.register ++
              [Effect.processOn "uncaughtException", Effect.processOn "unhandledRejection",
               Effect.configGet "port"]))) ∧
      (∀ q, Effect.listen q ∉ ([] : List Effect)) :=
  c6_listen_after_init sampleConfig Settled.resolved _ [] (JSVal.number 3000)
    (trace_evalWww_resolved sampleConfig)

/-- C8: for every configured path `p` and every value of `avoidCors`, the
application registers the five routers in the order auth, user, chat, message,
document at `p/auth/`, `p/user/`, `p/chat/`, `p/message/`, `p/document/`; the
body parsers and the CORS policy stand before them, no router stands before
them, and the global error handler comes right after them as the last layer. -/
theorem c8_mounting_order (cfg : Config) :
    ∃ pre, app cfg = pre ++
        [Layer.use (cfg.apiPath ++ "/auth/") (Handler.router RouterName.authRouter),
         Layer.use (cfg.apiPath ++ "/user/") (Handler.router RouterName.userRouter),
         Layer.use (cfg.apiPath ++ "/chat/") (Handler.router RouterName.chatRouter),
         Layer.use (cfg.apiPath ++ "/message/") (Handler.router RouterName.messageRouter),
         Layer.use (cfg.apiPath ++ "/document/") (Handler.router RouterName.documentRouter),
         Layer.use "/" Handler.errorHandler] ∧
      Layer.use "/" Handler.json ∈ pre ∧
      Layer.use "/" Handler.urlencoded ∈ pre ∧
      Layer.use "/" (Handler.cors corsPolicy) ∈ pre ∧
      (∀ l ∈ pre, ∀ r, l.handler ≠ Handler.router r) ∧
      (∀ l ∈ pre, l.handler ≠ Handler.errorHandler) ∧
      (app cfg).getLast? = some (Layer.use "/" Handler.errorHandler) := by
  refine ⟨layersBeforeInit ++ layersAvoidCors cfg ++ [Layer.get ["/api", "/api/"] Handler.root],
    ?_, ?_, ?_, ?_, ?_, ?_, ?_⟩
  · rw [app_eq]
    simp [layersRoutes]
  · simp [layersBeforeInit]
  · simp [layersBeforeInit]
  · simp [layersBeforeInit]
  · intro l hl r
    simp only [layersBeforeInit, layersAvoidCors, List.mem_append, List.mem_cons,
      List.mem_singleton, List.not_mem_nil, or_false] at hl
    rcases hl with (((h | h | h) | h) | h)
    · subst h; simp [Layer.handler]
    · subst h; simp [Layer.handler]
    · subst h; simp [Layer.handler]
    · split at h
      · simp only [List.mem_singleton] at h
        subst h; simp [Layer.handler]
      · cases h
    · subst h; simp [Layer.handler]
  · intro l hl
    simp only [layersBeforeInit, layersAvoidCors, List.mem_append, List.mem_cons,
      List.mem_singleton, List.not_mem_nil, or_false] at hl
    rcases hl with (((h | h | h) | h) | h)
    · subst h; simp [Layer.handler]
    · subst h; simp [Layer.handler]
    · subst h; simp [Layer.handler]
    · split at h
      · simp only [List.mem_singleton] at h
        subst h; simp [Layer.handler]
      · cases h
    · subst h; simp [Layer.handler]
  · rw [app_eq]
    simp [layersRoutes, List.getLast?_append]

/-! ## Serving a request -/

theorem dispatch_next (c : Collaborators) (l : Layer) (ls : List Layer) (req req1 : Request)
    (res res1 : Response) (inv : List Handler) (log : List LogLine)
    (hm : l.matches req = true) (hh : l.handler.handlesError = false)
    (hr : runHandler c l.handler req res = MwResult.next req1 res1) :
    dispatch c (l :: ls) none req res inv log =
      dispatch c ls none req1 res1 (inv ++ [l.handler]) log := by
  simp [dispatch, hm, hh, hr]

theorem dispatch_error (c : Collaborators) (l : Layer) (ls : List Layer) (req req1 : Request)
    (res res1 : Response) (inv : List Handler) (log : List LogLine) (e : ErrorValue)
    (hm : l.matches req = true) (hh : l.handler.handlesError = false)
    (hr : runHandler c l.handler req res = MwResult.error e req1 res1) :
    dispatch c (l :: ls) none req res inv log =
      dispatch c ls (some e) req1 res1 (inv ++ [l.handler]) log := by
  simp [dispatch, hm, hh, hr]

theorem dispatch_done (c : Collaborators) (l : Layer) (ls : List Layer) (req : Request)
    (res res1 : Response) (inv : List Handler) (log : List LogLine)
    (hm : l.matches req = true) (hh : l.handler.handlesError = false)
    (hr : runHandler c l.handler req res = MwResult.done res1) :
    dispatch c (l :: ls) none req res inv log = ⟨inv ++ [l.handler], log, some res1⟩ := by
  simp [dispatch, hm, hh, hr]

theorem dispatch_pending_skip (c : Collaborators) (path : String) (h : Handler) (ls : List Layer)
    (req : Request) (res : Response) (inv : List Handler) (log : List LogLine) (e : ErrorValue)
    (hh : h ≠ Handler.errorHandler) :
    dispatch c (Layer.use path h :: ls) (some e) req res inv log =
      dispatch c ls (some e) req res inv log := by
  cases h <;> first | rfl | exact absurd rfl hh

theorem matches_use_root (h : Handler) (req : Request) : (Layer.use "/" h).matches req = true := by
  simp [Layer.matches, mountMatches]

theorem jsonParser_cases (c : Collaborators) (req : Request) (res : Response) :
    jsonParser c req res = MwResult.next req res ∨
    (∃ v, jsonParser c req res = MwResult.next { req with body := v, bodyParsed := true } res) ∨
    (∃ e, jsonParser c req res = MwResult.error e req res) := by
  unfold jsonParser
  split
  · exact Or.inl rfl
  · split
    · exact Or.inl rfl
    · split
      · exact Or.inl rfl
      · simp only
        split
        · exact Or.inr (Or.inr ⟨_, rfl⟩)
        · split
          · exact Or.inr (Or.inl ⟨_, rfl⟩)
          · exact Or.inr (Or.inr ⟨_, rfl⟩)

theorem urlencodedParser_cases (c : Collaborators) (req : Request) (res : Response) :
    urlencodedParser c req res = MwResult.next req res ∨
    (∃ v, urlencodedParser c req res =
      MwResult.next { req with body := v, bodyParsed := true } res) ∨
    (∃ e, urlencodedParser c req res = MwResult.error e req res) := by
  unfold urlencodedParser
  split
  · exact Or.inl rfl
  · split
    · exact Or.inl rfl
    · split
      · exact Or.inl rfl
      · split
        · exact Or.inr (Or.inl ⟨_, rfl⟩)
        · exact Or.inr (Or.inr ⟨_, rfl⟩)

theorem urlencodedParser_parsed (c : Collaborators) (req : Request) (res : Response)
    (h : req.bodyParsed = true) : urlencodedParser c req res = MwResult.next req res := by
  simp [urlencodedParser, h]

theorem parsersAccept_of_no_body (c : Collaborators) (req : Request) (h : req.hasBody = false) :
    ParsersAccept c req := by
  constructor
  · intro e r s hc
    simp [jsonParser, h] at hc
  · intro e r s hc
    simp [urlencodedParser, h] at hc

theorem cors_policy_preflight (req : Request) (h : req.method = Method.OPTIONS) :
    Cors.middleware corsPolicy req {} =
      MwResult.done
        ⟨JSVal.number 204,
         [("Access-Control-Allow-Origin", "*"),
          ("Access-Control-Allow-Credentials", "true"),
          ("Access-Control-Allow-Methods", "GET,POST,PUT,DELETE,OPTIONS"),
          ("Access-Control-Allow-Headers", "Content-Type,Authorization,X-Client-Type"),
          ("Content-Length", "0")],
         Body.empty⟩ := by
  have h1 : ¬ (corsPolicy.origin.getD Cors.defaultOrigin = "") := by decide
  simp only [Cors.middleware, h1, h, if_true, if_false]
  rfl

theorem cors_policy_actual (req : Request) (h : req.method ≠ Method.OPTIONS) :
    Cors.middleware corsPolicy req {} =
      MwResult.next req
        ⟨JSVal.number 200,
         [("Access-Control-Allow-Origin", "*"), ("Access-Control-Allow-Credentials", "true")],
         Body.empty⟩ := by
  have h1 : ¬ (corsPolicy.origin.getD Cors.defaultOrigin = "") := by decide
  simp only [Cors.middleware, h1, h, if_false]
  rfl

theorem cors_default_actual (req : Request) (h : req.method ≠ Method.OPTIONS) :
    Cors.middleware {} req
        ⟨JSVal.number 200,
         [("Access-Control-Allow-Origin", "*"), ("Access-Control-Allow-Credentials", "true")],
         Body.empty⟩ =
      MwResult.next req
        ⟨JSVal.number 200,
         [("Access-Control-Allow-Origin", "*"), ("Access-Control-Allow-Credentials", "true")],
         Body.empty⟩ := by
  have h1 : ¬ (({} : CorsOptions).origin.getD Cors.defaultOrigin = "") := by decide
  simp only [Cors.middleware, h1, h, if_false]
  rfl

/-- The first three layers (`app.js` lines 15-25) on a request: a parser raises
an error, or the first CORS policy answers a preflight, or the request goes on
with the two CORS headers set. -/
theorem front (c : Collaborators) (req : Request) :
    (¬ ParsersAccept c req ∧ ∃ e req1 inv,
      (inv = [Handler.json] ∨ inv = [Handler.json, Handler.urlencoded]) ∧ ∀ rest,
      dispatch c (layersBeforeInit ++ rest) none req {} [] [] =
        dispatch c rest (some e) req1 {} inv []) ∨
    (req.method = Method.OPTIONS ∧ ∀ rest,
      dispatch c (layersBeforeInit ++ rest) none req {} [] [] =
        ⟨[Handler.json, Handler.urlencoded, Handler.cors corsPolicy], [],
         some ⟨JSVal.number 204,
           [("Access-Control-Allow-Origin", "*"),
            ("Access-Control-Allow-Credentials", "true"),
            ("Access-Control-Allow-Methods", "GET,POST,PUT,DELETE,OPTIONS"),
            ("Access-Control-Allow-Headers", "Content-Type,Authorization,X-Client-Type"),
            ("Content-Length", "0")],
           Body.empty⟩⟩) ∨
    (req.method ≠ Method.OPTIONS ∧ ∃ req2, req2.method = req.method ∧ req2.path = req.path ∧
      Response.fresh c req2 = Response.fresh c req ∧
      ∀ rest, dispatch c (layersBeforeInit ++ rest) none req {} [] [] =
        dispatch c rest none req2
          ⟨JSVal.number 200,
           [("Access-Control-Allow-Origin", "*"), ("Access-Control-Allow-Credentials", "true")],
           Body.empty⟩
          [Handler.json, Handler.urlencoded, Handler.cors corsPolicy] []) := by
  -- the CORS layer, on any request that the parsers handed on
  have hcors : ∀ req2 : Request, req2.method = req.method → req2.path = req.path →
      Response.fresh c req2 = Response.fresh c req →
      (∀ rest, dispatch c (layersBeforeInit ++ rest) none req {} [] [] =
        dispatch c (Layer.use "/" (Handler.cors corsPolicy) :: rest) none req2 {}
          [Handler.json, Handler.urlencoded] []) →
      (req.method = Method.OPTIONS ∧ ∀ rest,
        dispatch c (layersBeforeInit ++ rest) none req {} [] [] =
          ⟨[Handler.json, Handler.urlencoded, Handler.cors corsPolicy], [],
           some ⟨JSVal.number 204,
             [("Access-Control-Allow-Origin", "*"),
              ("Access-Control-Allow-Credentials", "true"),
              ("Access-Control-Allow-Methods", "GET,POST,PUT,DELETE,OPTIONS"),
              ("Access-Control-Allow-Headers", "Content-Type,Authorization,X-Client-Type"),
              ("Content-Length", "0")],
             Body.empty⟩⟩) ∨
      (req.method ≠ Method.OPTIONS ∧ ∃ req2, req2.method = req.method ∧ req2.path = req.path ∧
        Response.fresh c req2 = Response.fresh c req ∧
        ∀ rest, dispatch c (layersBeforeInit ++ rest) none req {} [] [] =
          dispatch c rest none req2
            ⟨JSVal.number 200,
             [("Access-Control-Allow-Origin", "*"), ("Access-Control-Allow-Credentials", "true")],
             Body.empty⟩
            [Handler.json, Handler.urlencoded, Handler.cors corsPolicy] []) := by
    intro req2 hmeth hpath hfresh hfront
    by_cases ho : req.method = Method.OPTIONS
    · refine Or.inl ⟨ho, fun rest => ?_⟩
      rw [hfront rest]
      exact dispatch_done c (Layer.use "/" (Handler.cors corsPolicy)) rest req2 {} _ _ _
        (matches_use_root _ _) rfl (cors_policy_preflight req2 (hmeth.trans ho))
    · refine Or.inr ⟨ho, req2, hmeth, hpath, hfresh, fun rest => ?_⟩
      rw [hfront rest]
      exact dispatch_next c (Layer.use "/" (Handler.cors corsPolicy)) rest req2 req2 {} _ _ _
        (matches_use_root _ _) rfl (cors_policy_actual req2 (by rw [hmeth]; exact ho))
  rcases jsonParser_cases c req {} with hj | ⟨v, hj⟩ | ⟨e, hj⟩
  · -- the JSON parser left the request as it was: the URL-encoded parser is next
    have hjson : ∀ rest, dispatch c (layersBeforeInit ++ rest) none req {} [] [] =
        dispatch c (Layer.use "/" Handler.urlencoded ::
          Layer.use "/" (Handler.cors corsPolicy) :: rest) none req {} [Handler.json] [] :=
      fun rest => dispatch_next c (Layer.use "/" Handler.json) _ req req {} {} _ _
        (matches_use_root _ _) rfl hj
    rcases urlencodedParser_cases c req {} with hu | ⟨v, hu⟩ | ⟨e, hu⟩
    · exact Or.inr (hcors req rfl rfl rfl (fun rest => by
        rw [hjson rest]
        exact dispatch_next c (Layer.use "/" Handler.urlencoded) _ req req {} {} _ _
          (matches_use_root _ _) rfl hu))
    · exact Or.inr (hcors { req with body := v, bodyParsed := true } rfl rfl rfl (fun rest => by
        rw [hjson rest]
        exact dispatch_next c (Layer.use "/" Handler.urlencoded) _ req _ {} {} _ _
          (matches_use_root _ _) rfl hu))
    · refine Or.inl ⟨fun hp => hp.2 e req {} hu, e, req, [Handler.json, Handler.urlencoded],
        Or.inr rfl, fun rest => ?_⟩
      rw [hjson rest, dispatch_error c (Layer.use "/" Handler.urlencoded) _ req req {} {} _ _ e
        (matches_use_root _ _) rfl hu]
      exact dispatch_pending_skip c _ _ rest req {} _ _ e (by simp)
  · refine Or.inr (hcors { req with body := v, bodyParsed := true } rfl rfl rfl (fun rest => ?_))
    have h1 : dispatch c (layersBeforeInit ++ rest) none req {} [] [] =
        dispatch c (Layer.use "/" Handler.urlencoded ::
          Layer.use "/" (Handler.cors corsPolicy) :: rest) none
          { req with body := v, bodyParsed := true } {} [Handler.json] [] :=
      dispatch_next c (Layer.use "/" Handler.json) _ req _ {} {} _ _ (matches_use_root _ _) rfl hj
    rw [h1]
    exact dispatch_next c (Layer.use "/" Handler.urlencoded) _ _ _ {} {} _ _
      (matches_use_root _ _) rfl (urlencodedParser_parsed c _ {} rfl)
  · refine Or.inl ⟨fun hp => hp.1 e req {} hj, e, req, [Handler.json], Or.inl rfl,
      fun rest => ?_⟩
    have h1 : dispatch c (layersBeforeInit ++ rest) none req {} [] [] =
        dispatch c (Layer.use "/" Handler.urlencoded ::
          Layer.use "/" (Handler.cors corsPolicy) :: rest) (some e) req {} [Handler.json] [] :=
      dispatch_error c (Layer.use "/" Handler.json) _ req req {} {} _ _ e
        (matches_use_root _ _) rfl hj
    rw [h1, dispatch_pending_skip c _ _ _ req {} _ _ e (by simp)]
    exact dispatch_pending_skip c _ _ rest req {} _ _ e (by simp)

/-- With an error pending, the layers after `await initDb()` lead to the global
error handler, the last of them. -/
theorem dispatch_pending_app (c : Collaborators) (cfg : Config) (e : ErrorValue) (req : Request)
    (res : Response) (inv : List Handler) (log : List LogLine) :
    dispatch c (layersAvoidCors cfg ++ layersRoutes cfg) (some e) req res inv log =
      dispatch c [Layer.use "/" Handler.errorHandler] (some e) req res inv log := by
  unfold layersAvoidCors
  split <;> simp [dispatch, layersRoutes]

theorem globalErrorHandler_cases (c : Collaborators) (e : ErrorValue) (req : Request)
    (res : Response) :
    (∃ r, (globalErrorHandler c e req res).2 = MwResult.done r) ∨
    (∃ e2 r, (globalErrorHandler c e req res).2 = MwResult.error e2 req r) := by
  simp only [globalErrorHandler]
  split
  · exact Or.inr ⟨_, _, rfl⟩
  · split
    · exact Or.inr ⟨_, _, rfl⟩
    · exact Or.inl ⟨_, rfl⟩

/-- The handlers that ran when an error reached the global error handler. -/
theorem invoked_pending (c : Collaborators) (e : ErrorValue) (req : Request)
    (res : Response) (inv : List Handler) (log : List LogLine) :
    (dispatch c [Layer.use "/" Handler.errorHandler] (some e) req res inv log).invoked =
      inv ++ [Handler.errorHandler] := by
  have hm : (Layer.use "/" Handler.errorHandler).matches req = true := by
    simp [Layer.matches, mountMatches]
  simp only [dispatch, hm, if_true]
  rcases hg : globalErrorHandler c e req res with ⟨line, out⟩
  rcases globalErrorHandler_cases c e req res with ⟨r, h⟩ | ⟨e2, r, h⟩
  · rw [hg] at h
    simp only at h
    subst h
    rfl
  · rw [hg] at h
    simp only at h
    subst h
    rfl

/-- The second CORS policy, when it is registered, hands a request that is no
preflight on as it got it. -/
theorem dispatch_avoidCors (c : Collaborators) (cfg : Config) (req : Request)
    (h : req.method ≠ Method.OPTIONS) (inv : List Handler) (log : List LogLine) :
    dispatch c (layersAvoidCors cfg ++ layersRoutes cfg) none req
        ⟨JSVal.number 200,
         [("Access-Control-Allow-Origin", "*"), ("Access-Control-Allow-Credentials", "true")],
         Body.empty⟩ inv log =
      dispatch c (layersRoutes cfg) none req
        ⟨JSVal.number 200,
         [("Access-Control-Allow-Origin", "*"), ("Access-Control-Allow-Credentials", "true")],
         Body.empty⟩ (inv ++ (layersAvoidCors cfg).map Layer.handler) log := by
  unfold layersAvoidCors
  split
  · exact dispatch_next c (Layer.use "/" (Handler.cors {})) _ req req _ _ _ _
      (matches_use_root _ _) rfl (cors_default_actual req h)
  · simp

/-- A `GET` of the root path that the parsers accept: what serving it leaves. -/
theorem served_root (c : Collaborators) (cfg : Config) (req : Request)
    (hm : req.method = Method.GET) (hp : req.path = "/api" ∨ req.path = "/api/")
    (ha : ParsersAccept c req)
    (hf : Response.fresh c req (JSVal.number 200) (Body.text "API de CIUDADANO DIGITAL") = false) :
    handle c (app cfg) req =
      ⟨[Handler.json, Handler.urlencoded, Handler.cors corsPolicy] ++
          (layersAvoidCors cfg).map Layer.handler ++ [Handler.root],
       [],
       some ⟨JSVal.number 200,
         [("Access-Control-Allow-Origin", "*"), ("Access-Control-Allow-Credentials", "true"),
          ("Content-Type", "text/html; charset=utf-8")],
         Body.text "API de CIUDADANO DIGITAL"⟩⟩ := by
  unfold handle
  rw [app_eq]
  rcases front c req with ⟨hn, _⟩ | ⟨ho, _⟩ | ⟨hno, req2, hmeth, hpath, hfresh, hrest⟩
  · exact absurd ha hn
  · rw [hm] at ho; cases ho
  · rw [hrest, dispatch_avoidCors c cfg req2 (by rw [hmeth]; exact hno)]
    have hmatch : (Layer.get ["/api", "/api/"] Handler.root).matches req2 = true := by
      rcases hp with hp | hp <;> simp only [Layer.matches, hpath, hmeth, hp, hm] <;> decide
    have hroot : rootHandler c req2
        ⟨JSVal.number 200,
         [("Access-Control-Allow-Origin", "*"), ("Access-Control-Allow-Credentials", "true")],
         Body.empty⟩ =
        ⟨JSVal.number 200,
         [("Access-Control-Allow-Origin", "*"), ("Access-Control-Allow-Credentials", "true"),
          ("Content-Type", "text/html; charset=utf-8")],
         Body.text "API de CIUDADANO DIGITAL"⟩ := by
      have h1 : Response.send c req2
          ⟨JSVal.number 200,
           [("Access-Control-Allow-Origin", "*"), ("Access-Control-Allow-Credentials", "true")],
           Body.empty⟩ "API de CIUDADANO DIGITAL" =
          Response.finish c req2
            ⟨JSVal.number 200,
             [("Access-Control-Allow-Origin", "*"), ("Access-Control-Allow-Credentials", "true"),
              ("Content-Type", "text/html; charset=utf-8")],
             Body.empty⟩ (Body.text "API de CIUDADANO DIGITAL") := rfl
      rw [rootHandler, h1, finish_of_carriesBody c req2 _ _
        ⟨200, rfl, by decide, by decide, by decide, by decide, by decide⟩
        (by rw [hmeth, hm]; decide) (by rw [hfresh]; exact hf)]
    exact dispatch_done c (Layer.get ["/api", "/api/"] Handler.root) _ req2 _ _ _ _ hmatch rfl
      (by simp only [Layer.handler, runHandler, hroot])

/-- A request that is no `OPTIONS`, that the parsers accept, to a path that
nothing is mounted on: what serving it leaves. -/
theorem served_unmounted (c : Collaborators) (cfg : Config) (req : Request)
    (hm : req.method ≠ Method.OPTIONS) (ha : ParsersAccept c req)
    (hu : Unmounted cfg req.path) :
    handle c (app cfg) req =
      ⟨[Handler.json, Handler.urlencoded, Handler.cors corsPolicy] ++
          (layersAvoidCors cfg).map Layer.handler,
       [],
       some ⟨JSVal.number 404,
         [("Access-Control-Allow-Origin", "*"), ("Access-Control-Allow-Credentials", "true"),
          ("Content-Type", "text/html; charset=utf-8")],
         Body.notFoundPage req.method req.path⟩⟩ := by
  unfold handle
  rw [app_eq]
  rcases front c req with ⟨hn, _⟩ | ⟨ho, _⟩ | ⟨_, req2, hmeth, hpath, _, hrest⟩
  · exact absurd ha hn
  · exact absurd ho hm
  · rw [hrest, dispatch_avoidCors c cfg req2 (by rw [hmeth]; exact hm)]
    obtain ⟨h1, h2, h3, h4, h5, h6, h7⟩ := hu
    simp [dispatch, layersRoutes, Layer.matches, hpath, hmeth, h1, h2, h3, h4, h5, h6, h7,
      Handler.handlesError, Layer.handler, Response.setHeader, Response.setIn]

theorem errorHandler_not_in_front (cfg : Config) :
    Handler.errorHandler ∉
      [Handler.json, Handler.urlencoded, Handler.cors corsPolicy] ++
        (layersAvoidCors cfg).map Layer.handler := by
  unfold layersAvoidCors
  split <;> simp [Layer.handler]

/-- C4, as stated, fails. A `GET /api` that declares a JSON body in the charset
`latin1` is refused by the JSON body parser, which runs before the route: the
global error handler answers with status 415 and the error envelope, and the
root handler is not reached. A `GET /api` with `If-None-Match: *` reaches the
root handler and is answered 304 without a body. -/
theorem c4_body_parser_refuses_get_api :
    (handle sampleCollaborators (app sampleConfig)
        { method := Method.GET, path := "/api", hasBody := true,
          mediaType := some "application/json", charset := some "latin1",
          payload := "{}" }).invoked = [Handler.json, Handler.errorHandler] ∧
    (handle sampleCollaborators (app sampleConfig)
        { method := Method.GET, path := "/api", hasBody := true,
          mediaType := some "application/json", charset := some "latin1",
          payload := "{}" }).response.map Response.statusCode = some (JSVal.number 415) ∧
    (handle sampleCollaborators (app sampleConfig)
        { method := Method.GET, path := "/api", hasBody := true,
          mediaType := some "application/json", charset := some "latin1",
          payload := "{}" }).response.map Response.body =
      some (Body.json [("error", JSVal.string "unsupported charset \"LATIN1\"")]) ∧
    (handle sampleCollaborators (app sampleConfig)
        { method := Method.GET, path := "/api",
          ifNoneMatch := some "*" }).response.map Response.statusCode =
      some (JSVal.number 304) ∧
    (handle sampleCollaborators (app sampleConfig)
        { method := Method.GET, path := "/api",
          ifNoneMatch := some "*" }).response.map Response.body = some Body.empty := by
  decide

/-- C4, amended: a `GET` request whose path is `/api` or `/api/`, with any query
string and any headers, for which the body parsers raise no error (such as any
request that declares no body) and which is no conditional request that may be
answered 304 (it carries no `If-None-Match` and no `If-Modified-Since`, or it
asks for `no-cache`), passes the body parsers and the CORS middleware and is
answered by the root handler: status 200 and the exact body
`API de CIUDADANO DIGITAL`; the global error handler does not run and nothing
is logged. -/
theorem c4_root_endpoint (c : Collaborators) (cfg : Config) (req : Request)
    (hm : req.method = Method.GET) (hp : req.path = "/api" ∨ req.path = "/api/")
    (ha : ParsersAccept c req) (hf : ¬ MayRevalidate req (JSVal.number 200)) :
    (handle c (app cfg) req).invoked =
      [Handler.json, Handler.urlencoded, Handler.cors corsPolicy] ++
        (layersAvoidCors cfg).map Layer.handler ++ [Handler.root] ∧
    Handler.errorHandler ∉ (handle c (app cfg) req).invoked ∧
    (handle c (app cfg) req).console = [] ∧
    ∃ res, (handle c (app cfg) req).response = some res ∧
      res.statusCode = JSVal.number 200 ∧
      res.body = Body.text "API de CIUDADANO DIGITAL" := by
  rw [served_root c cfg req hm hp ha (fresh_of_not_mayRevalidate c req _ _ hf)]
  refine ⟨rfl, ?_, rfl, _, rfl, rfl, rfl⟩
  intro h
  rcases List.mem_append.mp h with h | h
  · exact errorHandler_not_in_front cfg h
  · simp at h

/-- Witness for C4: `GET /api/` with a query string, no body and no validator. -/
theorem c4_root_endpoint_witness :
    (handle sampleCollaborators (app sampleConfig)
        { method := Method.GET, path := "/api/", query := "lang=es" }).invoked =
      [Handler.json, Handler.urlencoded, Handler.cors corsPolicy] ++
        (layersAvoidCors sampleConfig).map Layer.handler ++ [Handler.root] ∧
    Handler.errorHandler ∉
      (handle sampleCollaborators (app sampleConfig)
        { method := Method.GET, path := "/api/", query := "lang=es" }).invoked ∧
    (handle sampleCollaborators (app sampleConfig)
        { method := Method.GET, path := "/api/", query := "lang=es" }).console = [] ∧
    ∃ res,
      (handle sampleCollaborators (app sampleConfig)
        { method := Method.GET, path := "/api/", query := "lang=es" }).response = some res ∧
      res.statusCode = JSVal.number 200 ∧
      res.body = Body.text "API de CIUDADANO DIGITAL" :=
  c4_root_endpoint sampleCollaborators sampleConfig
    { method := Method.GET, path := "/api/", query := "lang=es" } rfl (Or.inr rfl)
    (parsersAccept_of_no_body _ _ rfl) (by unfold MayRevalidate; decide)

/-- C5, as stated, fails on the unmounted path `/nowhere`: a `POST` that declares
a JSON body in the charset `latin1` is answered by the global error handler
(status 415, error envelope), and an `OPTIONS` request is answered by the CORS
middleware with status 204; neither gets the default 404. -/
theorem c5_unmounted_not_default_404 :
    Unmounted sampleConfig "/nowhere" ∧
    (handle sampleCollaborators (app sampleConfig)
        { method := Method.POST, path := "/nowhere", hasBody := true,
          mediaType := some "application/json", charset := some "latin1",
          payload := "{}" }).invoked = [Handler.json, Handler.errorHandler] ∧
    (handle sampleCollaborators (app sampleConfig)
        { method := Method.POST, path := "/nowhere", hasBody := true,
          mediaType := some "application/json", charset := some "latin1",
          payload := "{}" }).response.map Response.statusCode = some (JSVal.number 415) ∧
    (handle sampleCollaborators (app sampleConfig)
        { method := Method.POST, path := "/nowhere", hasBody := true,
          mediaType := some "application/json", charset := some "latin1",
          payload := "{}" }).response.map Response.body =
      some (Body.json [("error", JSVal.string "unsupported charset \"LATIN1\"")]) ∧
    (handle sampleCollaborators (app sampleConfig)
        { method := Method.OPTIONS, path := "/nowhere" }).response.map Response.statusCode =
      some (JSVal.number 204) ∧
    (handle sampleCollaborators (app sampleConfig)
        { method := Method.OPTIONS, path := "/nowhere" }).response.map Response.body =
      some Body.empty := by
  refine ⟨?_, ?_, ?_, ?_, ?_, ?_⟩
  · unfold Unmounted
    decide
  all_goals decide

/-- C5, amended: a request that is no `OPTIONS` request, for which the body
parsers raise no error, and whose path matches neither the root route nor any
of the five mounts, gets the default 404 of the framework: the global error
handler does not run, nothing is logged, the body is the page of the framework
and no error envelope. -/
theorem c5_unmounted_default_404 (c : Collaborators) (cfg : Config) (req : Request)
    (hm : req.method ≠ Method.OPTIONS) (ha : ParsersAccept c req)
    (hu : Unmounted cfg req.path) :
    Handler.errorHandler ∉ (handle c (app cfg) req).invoked ∧
    (handle c (app cfg) req).console = [] ∧
    ∃ res, (handle c (app cfg) req).response = some res ∧
      res.statusCode = JSVal.number 404 ∧
      res.body = Body.notFoundPage req.method req.path ∧
      ∀ fields, res.body ≠ Body.json fields := by
  rw [served_unmounted c cfg req hm ha hu]
  refine ⟨errorHandler_not_in_front cfg, rfl, _, rfl, rfl, rfl, ?_⟩
  intro fields h
  cases h

/-- Witness for C5: `POST /nowhere` without a body. -/
theorem c5_unmounted_default_404_witness :
    Handler.errorHandler ∉
      (handle sampleCollaborators (app sampleConfig)
        { method := Method.POST, path := "/nowhere" }).invoked ∧
    (handle sampleCollaborators (app sampleConfig)
        { method := Method.POST, path := "/nowhere" }).console = [] ∧
    ∃ res,
      (handle sampleCollaborators (app sampleConfig)
        { method := Method.POST, path := "/nowhere" }).response = some res ∧
      res.statusCode = JSVal.number 404 ∧
      res.body = Body.notFoundPage Method.POST "/nowhere" ∧
      ∀ fields, res.body ≠ Body.json fields :=
  c5_unmounted_default_404 sampleCollaborators sampleConfig
    { method := Method.POST, path := "/nowhere" } (by decide)
    (parsersAccept_of_no_body _ _ rfl) (by unfold Unmounted; decide)

/-- C7: every preflight request (`OPTIONS`, no body), to any path, from any
origin and for every value of `avoidCors`, is answered by the first CORS
policy with status 204 and the headers allowing origin `*`, credentials
`true`, exactly the methods `GET,POST,PUT,DELETE,OPTIONS` and exactly the
headers `Content-Type,Authorization,X-Client-Type`. -/
theorem c7_preflight_headers (c : Collaborators) (cfg : Config) (req : Request)
    (h : IsPreflight req) :
    (handle c (app cfg) req).invoked =
      [Handler.json, Handler.urlencoded, Handler.cors corsPolicy] ∧
    ∃ res, (handle c (app cfg) req).response = some res ∧
      res.statusCode = JSVal.number 204 ∧
      res.getHeader "Access-Control-Allow-Origin" = some "*" ∧
      res.getHeader "Access-Control-Allow-Credentials" = some "true" ∧
      res.getHeader "Access-Control-Allow-Methods" = some "GET,POST,PUT,DELETE,OPTIONS" ∧
      res.getHeader "Access-Control-Allow-Headers" =
        some "Content-Type,Authorization,X-Client-Type" := by
  unfold handle
  rw [app_eq]
  rcases front c req with ⟨hn, _⟩ | ⟨_, hrest⟩ | ⟨hno, _⟩
  · exact absurd (parsersAccept_of_no_body c req h.2) hn
  · rw [hrest]
    exact ⟨rfl, _, rfl, rfl, by decide, by decide, by decide, by decide⟩
  · exact absurd h.1 hno

/-- Witness for C7: a preflight from `https://example.org` to `/api/auth/login`,
with the second policy registered. -/
theorem c7_preflight_headers_witness :
    (handle sampleCollaborators (app { sampleConfig with avoidCors := JSVal.bool true })
        { method := Method.OPTIONS, path := "/api/auth/login",
          origin := some "https://example.org" }).invoked =
      [Handler.json, Handler.urlencoded, Handler.cors corsPolicy] ∧
    ∃ res,
      (handle sampleCollaborators (app { sampleConfig with avoidCors := JSVal.bool true })
        { method := Method.OPTIONS, path := "/api/auth/login",
          origin := some "https://example.org" }).response = some res ∧
      res.statusCode = JSVal.number 204 ∧
      res.getHeader "Access-Control-Allow-Origin" = some "*" ∧
      res.getHeader "Access-Control-Allow-Credentials" = some "true" ∧
      res.getHeader "Access-Control-Allow-Methods" = some "GET,POST,PUT,DELETE,OPTIONS" ∧
      res.getHeader "Access-Control-Allow-Headers" =
        some "Content-Type,Authorization,X-Client-Type" :=
  c7_preflight_headers sampleCollaborators { sampleConfig with avoidCors := JSVal.bool true }
    { method := Method.OPTIONS, path := "/api/auth/login", origin := some "https://example.org" }
    ⟨rfl, rfl⟩

/-! ## The two CORS policies -/

theorem dispatch_invoked_irrelevant (c : Collaborators) (ls : List Layer) :
    ∀ (e : Option ErrorValue) (req : Request) (res : Response) (inv inv2 : List Handler)
      (log : List LogLine),
      (dispatch c ls e req res inv log).response = (dispatch c ls e req res inv2 log).response ∧
      (dispatch c ls e req res inv log).console = (dispatch c ls e req res inv2 log).console := by
  induction ls with
  | nil =>
    intro e req res inv inv2 log
    cases e <;> exact ⟨rfl, rfl⟩
  | cons l ls ih =>
    intro e req res inv inv2 log
    cases e with
    | none =>
      simp only [dispatch]
      split
      · split
        · exact ih _ _ _ _ _ _
        · exact ih _ _ _ _ _ _
        · exact ⟨rfl, rfl⟩
        · exact ⟨rfl, rfl⟩
      · exact ih _ _ _ _ _ _
    | some err =>
      simp only [dispatch]
      split
      · split
        · split
          · exact ⟨rfl, rfl⟩
          · exact ih _ _ _ _ _ _
          · exact ih _ _ _ _ _ _
          · exact ⟨rfl, rfl⟩
        · exact ih _ _ _ _ _ _
      · exact ih _ _ _ _ _ _

theorem lookup_setIn (k k2 v : String) (l : List (String × String)) :
    (Response.setIn k2 v l).lookup k = if k = k2 then some v else l.lookup k := by
  induction l with
  | nil =>
    by_cases h : k = k2
    · simp [Response.setIn, List.lookup, h]
    · have h2 : (k == k2) = false := by simpa using h
      simp [Response.setIn, List.lookup, h, h2]
  | cons p rest ih =>
    obtain ⟨a, b⟩ := p
    by_cases ha : a = k2
    · by_cases h : k = k2
      · simp [Response.setIn, ha, h, List.lookup]
      · have h2 : (k == k2) = false := by simpa using h
        simp [Response.setIn, ha, h, List.lookup, h2]
    · by_cases hk : k = a
      · have h : ¬ k = k2 := by rw [hk]; exact ha
        simp [Response.setIn, ha, h, List.lookup, hk]
      · have h2 : (k == a) = false := by simpa using hk
        simp [Response.setIn, ha, List.lookup, h2, ih]

theorem getHeader_setHeader (res : Response) (k k2 v : String) :
    (res.setHeader k2 v).getHeader k = if k = k2 then some v else res.getHeader k := by
  simp [Response.getHeader, Response.setHeader, lookup_setIn]

theorem getHeader_vary (res : Response) (k field : String) (h : k ≠ "Vary") :
    (res.vary field).getHeader k = res.getHeader k := by
  unfold Response.vary
  split <;> simp [getHeader_setHeader, h]

theorem getHeader_setStatusCode (res : Response) (k : String) (code : JSVal) :
    (res.setStatusCode code).getHeader k = res.getHeader k := rfl

/-- Each of the two policies answers or hands on every request, whatever its
origin, with `Access-Control-Allow-Origin: *`. -/
theorem cors_allows_any_origin (o : CorsOptions) (ho : o = corsPolicy ∨ o = {})
    (req : Request) (res : Response) :
    ∃ res2, (Cors.middleware o req res = MwResult.done res2 ∨
        Cors.middleware o req res = MwResult.next req res2) ∧
      res2.getHeader "Access-Control-Allow-Origin" = some "*" := by
  have h1 : ¬ (o.origin.getD Cors.defaultOrigin = "") := by
    rcases ho with ho | ho <;> subst ho <;> decide
  have h2 : o.origin.getD Cors.defaultOrigin = "*" := by
    rcases ho with ho | ho <;> subst ho <;> decide
  by_cases hm : req.method = Method.OPTIONS
  · have hmw : Cors.middleware o req res = MwResult.done
        (((Cors.configureAllowedHeaders o req
            (Cors.configureMethods o
              (Cors.configureCredentials o
                (Cors.configureOrigin (o.origin.getD Cors.defaultOrigin) res)))).setStatusCode
          (JSVal.number Cors.optionsSuccessStatus)).setHeader "Content-Length" "0") := by
      simp only [Cors.middleware, h1, hm, if_true, if_false]
    refine ⟨_, Or.inl hmw, ?_⟩
    rw [getHeader_setHeader, getHeader_setStatusCode, h2]
    have hne : ¬ ("Access-Control-Allow-Origin" = "Content-Length") := by decide
    rw [if_neg hne]
    have hah : ∀ r : Response, (Cors.configureAllowedHeaders o req r).getHeader
        "Access-Control-Allow-Origin" = r.getHeader "Access-Control-Allow-Origin" := by
      intro r
      unfold Cors.configureAllowedHeaders
      have hv : ("Access-Control-Allow-Origin" : String) ≠ "Vary" := by decide
      have hk : ¬ (("Access-Control-Allow-Origin" : String) = "Access-Control-Allow-Headers") := by
        decide
      split
      · simp only
        split
        · rfl
        · rw [getHeader_setHeader, if_neg hk]
      · simp only
        split
        · exact getHeader_vary _ _ _ hv
        · split
          · exact getHeader_vary _ _ _ hv
          · rw [getHeader_setHeader, if_neg hk]
            exact getHeader_vary _ _ _ hv
    have hme : ∀ r : Response, (Cors.configureMethods o r).getHeader
        "Access-Control-Allow-Origin" = r.getHeader "Access-Control-Allow-Origin" := by
      intro r
      unfold Cors.configureMethods
      rw [getHeader_setHeader, if_neg (by decide)]
    have hcr : ∀ r : Response, (Cors.configureCredentials o r).getHeader
        "Access-Control-Allow-Origin" = r.getHeader "Access-Control-Allow-Origin" := by
      intro r
      unfold Cors.configureCredentials
      split
      · rw [getHeader_setHeader, if_neg (by decide)]
      · rfl
    rw [hah, hme, hcr]
    simp [Cors.configureOrigin, getHeader_setHeader]
  · have hmw : Cors.middleware o req res = MwResult.next req
        (Cors.configureCredentials o
          (Cors.configureOrigin (o.origin.getD Cors.defaultOrigin) res)) := by
      simp only [Cors.middleware, h1, hm, if_false]
    refine ⟨_, Or.inr hmw, ?_⟩
    have hcr : ∀ r : Response, (Cors.configureCredentials o r).getHeader
        "Access-Control-Allow-Origin" = r.getHeader "Access-Control-Allow-Origin" := by
      intro r
      unfold Cors.configureCredentials
      split
      · rw [getHeader_setHeader, if_neg (by decide)]
      · rfl
    rw [hcr, h2]
    simp [Cors.configureOrigin, getHeader_setHeader]

theorem dispatch_pending_routes (c : Collaborators) (cfg : Config) (e : ErrorValue)
    (req : Request) (res : Response) (inv : List Handler) (log : List LogLine) :
    dispatch c (layersRoutes cfg) (some e) req res inv log =
      dispatch c [Layer.use "/" Handler.errorHandler] (some e) req res inv log := by
  simp [dispatch, layersRoutes]

/-- Serving a request gives the same response and the same log lines with the
layer of `app.js` line 30 as without it. -/
theorem served_without_second_policy (c : Collaborators) (cfg : Config) (req : Request) :
    (handle c (app cfg) req).response =
      (dispatch c (layersBeforeInit ++ layersRoutes cfg) none req {} [] []).response ∧
    (handle c (app cfg) req).console =
      (dispatch c (layersBeforeInit ++ layersRoutes cfg) none req {} [] []).console := by
  unfold handle
  rw [app_eq]
  rcases front c req with ⟨_, e, req1, inv, _, hrest⟩ | ⟨_, hrest⟩ | ⟨hno, req2, hmeth, _, _, hrest⟩
  · rw [hrest, hrest, dispatch_pending_app, dispatch_pending_routes]
    exact ⟨rfl, rfl⟩
  · rw [hrest, hrest]
    exact ⟨rfl, rfl⟩
  · rw [hrest, hrest, dispatch_avoidCors c cfg req2 (by rw [hmeth]; exact hno)]
    exact dispatch_invoked_irrelevant c _ _ _ _ _ _ _

/-- C10: for every request, the response (its CORS headers included) and the
log are the same whatever the value of `avoidCors`; every CORS policy
registered on the application answers or hands on every request, whatever its
origin, with `Access-Control-Allow-Origin: *`, and never raises an error; an
`OPTIONS` request never reaches the second policy. -/
theorem c10_avoidCors_layering (c : Collaborators) (api : String) (port av av2 : JSVal)
    (req : Request) :
    ((handle c (app ⟨api, av, port⟩) req).response =
        (handle c (app ⟨api, av2, port⟩) req).response ∧
      (handle c (app ⟨api, av, port⟩) req).console =
        (handle c (app ⟨api, av2, port⟩) req).console) ∧
    (∀ o, Layer.use "/" (Handler.cors o) ∈ app ⟨api, av, port⟩ →
      ∀ res, ∃ res2, (Cors.middleware o req res = MwResult.done res2 ∨
          Cors.middleware o req res = MwResult.next req res2) ∧
        res2.getHeader "Access-Control-Allow-Origin" = some "*") ∧
    (req.method = Method.OPTIONS →
      Handler.cors {} ∉ (handle c (app ⟨api, av, port⟩) req).invoked) := by
  refine ⟨?_, ?_, ?_⟩
  · have h1 := served_without_second_policy c ⟨api, av, port⟩ req
    have h2 := served_without_second_policy c ⟨api, av2, port⟩ req
    have hr : layersRoutes ⟨api, av, port⟩ = layersRoutes ⟨api, av2, port⟩ := rfl
    rw [hr] at h1
    exact ⟨h1.1.trans h2.1.symm, h1.2.trans h2.2.symm⟩
  · intro o ho res
    refine cors_allows_any_origin o ?_ req res
    rw [app_eq] at ho
    simp only [layersBeforeInit, layersAvoidCors, layersRoutes, List.mem_append, List.mem_cons,
      List.not_mem_nil, or_false] at ho
    rcases ho with (h | h | h) | h | h
    · cases h
    · cases h
    · injection h with _ h
      injection h with h
      exact Or.inl h
    · split at h
      · simp only [List.mem_singleton] at h
        injection h with _ h
        injection h with h
        exact Or.inr h
      · cases h
    · simp at h
  · intro hm
    unfold handle
    rw [app_eq]
    rcases front c req with ⟨_, e, req1, inv, hinv, hrest⟩ | ⟨_, hrest⟩ | ⟨hno, _⟩
    · rw [hrest, dispatch_pending_app, invoked_pending]
      rcases hinv with hinv | hinv <;> subst hinv <;> simp
    · rw [hrest]
      simp [corsPolicy]
    · exact absurd hm hno

/-- Witness for C10: an `OPTIONS` request from `https://example.org`, served
with and without the second policy. -/
theorem c10_avoidCors_layering_witness :
    (handle sampleCollaborators (app ⟨"/api", JSVal.bool true, JSVal.number 3000⟩)
        { method := Method.OPTIONS, path := "/api/chat/1",
          origin := some "https://example.org" }).response =
      (handle sampleCollaborators (app ⟨"/api", JSVal.bool false, JSVal.number 3000⟩)
        { method := Method.OPTIONS, path := "/api/chat/1",
          origin := some "https://example.org" }).response ∧
    (∃ res2,
      (Cors.middleware {}
          { method := Method.OPTIONS, path := "/api/chat/1",
            origin := some "https://example.org" } {} = MwResult.done res2 ∨
        Cors.middleware {}
          { method := Method.OPTIONS, path := "/api/chat/1",
            origin := some "https://example.org" } {} =
          MwResult.next
            { method := Method.OPTIONS, path := "/api/chat/1",
              origin := some "https://example.org" } res2) ∧
      res2.getHeader "Access-Control-Allow-Origin" = some "*") ∧
    Handler.cors {} ∉
      (handle sampleCollaborators (app ⟨"/api", JSVal.bool true, JSVal.number 3000⟩)
        { method := Method.OPTIONS, path := "/api/chat/1",
          origin := some "https://example.org" }).invoked :=
  ⟨(c10_avoidCors_layering sampleCollaborators "/api" (JSVal.number 3000) (JSVal.bool true)
      (JSVal.bool false)
      { method := Method.OPTIONS, path := "/api/chat/1",
        origin := some "https://example.org" }).1.1,
   (c10_avoidCors_layering sampleCollaborators "/api" (JSVal.number 3000) (JSVal.bool true)
      (JSVal.bool false)
      { method := Method.OPTIONS, path := "/api/chat/1",
        origin := some "https://example.org" }).2.1 {} (by decide) {},
   (c10_avoidCors_layering sampleCollaborators "/api" (JSVal.number 3000) (JSVal.bool true)
      (JSVal.bool false)
      { method := Method.OPTIONS, path := "/api/chat/1",
        origin := some "https://example.org" }).2.2 rfl⟩

end CiudadanoDigital
